import Mathlib

/-!
# Verification of the WellSync coordination and recovery-prioritization engine

Shallow embedding of `wellsync_ai/agents/coordinator_agent.py` and
`wellsync_ai/agents/recovery_prioritization.py`.

Modelling conventions:
* Python `float` is modelled as `ℚ` with exact decimal literals.
* Python dicts that the engine reads or writes are modelled as structures whose
  fields are `Option`-valued (a `none` field is an absent key).  Keys the engine
  never touches are summarised by an `extra : Bool` field recording whether any
  such key is present; this is enough to decide Python dict truthiness
  (`if some_dict:`), which is what the source branches on.
* String-valued enumerations (`"low"`/`"medium"`/`"high"`, …) are kept as
  `String`, exactly as the source compares them.
* Strings that the engine only ever builds for human consumption (the
  `reasoning` fields) are modelled by inductive values carrying exactly the data
  the Python f-strings interpolate, so that equality of the model values
  corresponds to equality of the produced strings.
-/

/-- clamp to `[0, 1]`, as Python `max(0, min(1, x))`. -/
def clamp01 (x : ℚ) : ℚ := max 0 (min 1 x)

/-- clamp to `[0, 100]`, as Python `max(0, min(100, x))`. -/
def clamp0100 (x : ℚ) : ℚ := max 0 (min 100 x)

/-! ## Data model: per-domain proposal dictionaries -/

/-- `workout_plan` dict of a Fitness proposal.  `weekly_schedule` is the list of
session `duration_minutes` values (`session.get('duration_minutes', 0)` is the
only field of a session the engine reads). -/
structure WorkoutPlan where
  weekly_schedule : Option (List ℚ) := none
  complexity : Option String := none
  recovery_prioritization : Option Bool := none
  intensity_reduction : Option String := none
  modification_reason : Option String := none
  intensity_adjustment : Option String := none
  time_optimization : Option String := none
  complexity_reduction : Option String := none
  /-- other keys (focus, sessions, intensity, weekly_volume, progression, …) -/
  extra : Bool := false
  deriving DecidableEq, Repr

/-- Python truthiness of the `workout_plan` dict (non-empty dict). -/
def WorkoutPlan.truthy (w : WorkoutPlan) : Bool :=
  w.weekly_schedule.isSome || w.complexity.isSome || w.recovery_prioritization.isSome ||
  w.intensity_reduction.isSome || w.modification_reason.isSome ||
  w.intensity_adjustment.isSome || w.time_optimization.isSome ||
  w.complexity_reduction.isSome || w.extra

/-- `meal_plan` dict of a Nutrition proposal. -/
structure MealPlan where
  total_prep_time_minutes : Option ℚ := none
  complexity : Option String := none
  recovery_optimization : Option Bool := none
  focus : Option String := none
  cost_optimization : Option String := none
  prep_optimization : Option String := none
  complexity_reduction : Option String := none
  /-- other keys (daily_calories, macro_split, meals, hydration, …) -/
  extra : Bool := false
  deriving DecidableEq, Repr

def MealPlan.truthy (m : MealPlan) : Bool :=
  m.total_prep_time_minutes.isSome || m.complexity.isSome ||
  m.recovery_optimization.isSome || m.focus.isSome || m.cost_optimization.isSome ||
  m.prep_optimization.isSome || m.complexity_reduction.isSome || m.extra

/-- `sleep_recommendations` dict of a Sleep proposal. -/
structure SleepRecs where
  recovery_prioritization : Option Bool := none
  priority_level : Option String := none
  /-- other keys (target_hours, bedtime, sleep_hygiene, …) -/
  extra : Bool := false
  deriving DecidableEq, Repr

/-- `constraints_for_others` dict of a Sleep proposal. -/
structure ConstraintsForOthers where
  recovery_priority : Option String := none
  max_training_intensity : Option String := none
  extra : Bool := false
  deriving DecidableEq, Repr

/-- `wellness_recommendations` dict of a MentalWellness proposal. -/
structure WellnessRecs where
  complexity_reduction : Option Bool := none
  focus : Option String := none
  /-- other keys (daily_practices, stress_management, …) -/
  extra : Bool := false
  deriving DecidableEq, Repr

/-- `complexity_adjustments` dict of a MentalWellness proposal. -/
structure ComplexityAdjustments where
  simplification_needed : Option Bool := none
  reason : Option String := none
  extra : Bool := false
  deriving DecidableEq, Repr

/-- FitnessAgent proposal dict. -/
structure FitnessProp where
  confidence : Option ℚ := none
  reasoning : Option String := none
  workout_plan : Option WorkoutPlan := none
  energy_demand : Option String := none
  training_load_score : Option ℚ := none
  overtraining_risk : Option String := none
  conflict_resolution_applied : Option Bool := none
  modification_reason : Option String := none
  extra : Bool := false
  deriving DecidableEq, Repr

def FitnessProp.truthy (p : FitnessProp) : Bool :=
  p.confidence.isSome || p.reasoning.isSome || p.workout_plan.isSome ||
  p.energy_demand.isSome || p.training_load_score.isSome ||
  p.overtraining_risk.isSome || p.conflict_resolution_applied.isSome ||
  p.modification_reason.isSome || p.extra

/-- NutritionAgent proposal dict. -/
structure NutritionProp where
  confidence : Option ℚ := none
  reasoning : Option String := none
  meal_plan : Option MealPlan := none
  nutritional_adequacy : Option String := none
  budget_utilization : Option ℚ := none
  adequacy_priority : Option String := none
  priority_adjustment : Option String := none
  conflict_resolution_applied : Option Bool := none
  modification_reason : Option String := none
  extra : Bool := false
  deriving DecidableEq, Repr

def NutritionProp.truthy (p : NutritionProp) : Bool :=
  p.confidence.isSome || p.reasoning.isSome || p.meal_plan.isSome ||
  p.nutritional_adequacy.isSome || p.budget_utilization.isSome ||
  p.adequacy_priority.isSome || p.priority_adjustment.isSome ||
  p.conflict_resolution_applied.isSome || p.modification_reason.isSome || p.extra

/-- SleepAgent proposal dict. -/
structure SleepProp where
  confidence : Option ℚ := none
  reasoning : Option String := none
  sleep_recommendations : Option SleepRecs := none
  recovery_status : Option String := none
  sleep_quality_target : Option ℚ := none
  constraints_for_others : Option ConstraintsForOthers := none
  conflict_resolution_applied : Option Bool := none
  modification_reason : Option String := none
  extra : Bool := false
  deriving DecidableEq, Repr

def SleepProp.truthy (p : SleepProp) : Bool :=
  p.confidence.isSome || p.reasoning.isSome || p.sleep_recommendations.isSome ||
  p.recovery_status.isSome || p.sleep_quality_target.isSome ||
  p.constraints_for_others.isSome || p.conflict_resolution_applied.isSome ||
  p.modification_reason.isSome || p.extra

/-- MentalWellnessAgent proposal dict. -/
structure MentalProp where
  confidence : Option ℚ := none
  reasoning : Option String := none
  wellness_recommendations : Option WellnessRecs := none
  motivation_level : Option String := none
  complexity_adjustments : Option ComplexityAdjustments := none
  conflict_resolution_applied : Option Bool := none
  modification_reason : Option String := none
  extra : Bool := false
  deriving DecidableEq, Repr

def MentalProp.truthy (p : MentalProp) : Bool :=
  p.confidence.isSome || p.reasoning.isSome || p.wellness_recommendations.isSome ||
  p.motivation_level.isSome || p.complexity_adjustments.isSome ||
  p.conflict_resolution_applied.isSome || p.modification_reason.isSome || p.extra

/-- The `agent_proposals` mapping.  The engine only ever looks up the four
expected agent names, so the map is modelled by four optional slots
(a `none` slot is a missing agent). -/
structure Proposals where
  fitness : Option FitnessProp := none
  nutrition : Option NutritionProp := none
  sleep : Option SleepProp := none
  mental : Option MentalProp := none
  deriving DecidableEq, Repr

/-- Number of present proposals: Python `len(agent_proposals)`. -/
def Proposals.size (p : Proposals) : ℕ :=
  (if p.fitness.isSome then 1 else 0) + (if p.nutrition.isSome then 1 else 0) +
  (if p.sleep.isSome then 1 else 0) + (if p.mental.isSome then 1 else 0)

/-- `user_constraints`: the engine reads `time_available.max_weekly_minutes`,
`budget.weekly_food_budget` (read but unused by any branch) and, in the plan
summary, `daily_budget` and `workout_minutes`. -/
structure Constraints where
  max_weekly_minutes : Option ℚ := none
  weekly_food_budget : Option ℚ := none
  daily_budget : Option ℚ := none
  workout_minutes : Option ℚ := none
  deriving DecidableEq, Repr

/-- `user_data` (from `shared_state['user_profile']`).  `daily_hours` flattens
`recent_data.sleep.daily_hours` (absent path = `[]`), the stress fields flatten
`stress_indicators` (absent key = `0` / `False`), exactly matching the chained
`.get(…, default)` reads in the source. -/
structure UserData where
  daily_hours : List ℚ := []
  work_stress_level : ℚ := 0
  life_stress_level : ℚ := 0
  relationship_stress : ℚ := 0
  financial_stress : ℚ := 0
  health_concerns : Bool := false
  deriving DecidableEq, Repr

/-- `shared_state`: the engine reads only `user_profile`. -/
structure SharedState where
  user_profile : Option UserData := none
  deriving DecidableEq, Repr

/-! ## RecoveryPrioritizationEngine (`recovery_prioritization.py`) -/

/-- `EnergyConflictType` enum. -/
inductive EnergyConflictType where
  | high_demand_low_recovery
  | insufficient_nutrition
  | sleep_debt_accumulation
  | overtraining_risk
  | stress_overload
  | multiple_stressors
  deriving DecidableEq, Repr

/-- Enum `.value` strings. -/
def EnergyConflictType.value : EnergyConflictType → String
  | .high_demand_low_recovery => "high_demand_low_recovery"
  | .insufficient_nutrition => "insufficient_nutrition"
  | .sleep_debt_accumulation => "sleep_debt_accumulation"
  | .overtraining_risk => "overtraining_risk"
  | .stress_overload => "stress_overload"
  | .multiple_stressors => "multiple_stressors"

/-- `EnergyBalance` dataclass. -/
structure EnergyBalance where
  energy_demand : ℚ
  energy_availability : ℚ
  recovery_capacity : ℚ
  stress_load : ℚ
  sustainability_score : ℚ
  balance_status : String
  deriving DecidableEq, Repr

/-- `RecoveryPriority` dataclass. -/
structure RecoveryPriority where
  priority_level : String
  affected_domains : List String
  interventions : List String
  trade_offs : List String
  timeline : String
  confidence : ℚ
  deriving DecidableEq, Repr

/-- `_calculate_sleep_debt`: debt against an 8-hour target over the last 7
recorded nights. -/
def calculate_sleep_debt (u : UserData) : ℚ :=
  let recent := u.daily_hours
  if recent = [] then 0
  else
    ((recent.drop (recent.length - 7)).map
      (fun h => if h < 8 then 8 - h else 0)).sum

/-- `_calculate_stress_penalty` (cap 40). -/
def calculate_stress_penalty (u : UserData) : ℚ :=
  min (u.work_stress_level * 2 + u.life_stress_level * 1.5 +
    (if u.health_concerns then 10 else 0)) 40

/-- `_calculate_external_stress` (cap 60). -/
def calculate_external_stress (u : UserData) : ℚ :=
  min (u.work_stress_level * 3 + u.relationship_stress * 2 +
    u.financial_stress * 2.5) 60

/-- `_calculate_energy_demand`. -/
def calculate_energy_demand (fp : Option FitnessProp) : ℚ :=
  let ed := ((fp.bind (·.energy_demand)).getD "medium")
  let base : ℚ := if ed = "low" then 30 else if ed = "medium" then 60
    else if ed = "high" then 90 else 60
  let tl := (fp.bind (·.training_load_score)).getD 50
  clamp0100 (base + (tl - 50) * 0.4)

/-- `_calculate_energy_availability`. -/
def calculate_energy_availability (np : Option NutritionProp)
    (sp : Option SleepProp) : ℚ :=
  let na := (np.bind (·.nutritional_adequacy)).getD "medium"
  let nscore : ℚ := if na = "low" then 20 else if na = "medium" then 60
    else if na = "high" then 90 else 60
  let rs := (sp.bind (·.recovery_status)).getD "fair"
  let sscore : ℚ := if rs = "poor" then 20 else if rs = "fair" then 50
    else if rs = "good" then 80 else if rs = "excellent" then 95 else 50
  clamp0100 (nscore * 0.6 + sscore * 0.4)

/-- `_calculate_recovery_capacity`. -/
def calculate_recovery_capacity (sp : Option SleepProp) (u : UserData) : ℚ :=
  let rs := (sp.bind (·.recovery_status)).getD "fair"
  let base : ℚ := if rs = "poor" then 25 else if rs = "fair" then 50
    else if rs = "good" then 75 else if rs = "excellent" then 95 else 50
  let debt_penalty := min 30 (calculate_sleep_debt u * 10)
  clamp0100 (base - debt_penalty - calculate_stress_penalty u)

/-- `_calculate_stress_load`. -/
def calculate_stress_load (mp : Option MentalProp) (u : UserData) : ℚ :=
  let ml := (mp.bind (·.motivation_level)).getD "medium"
  let base : ℚ := if ml = "low" then 70 else if ml = "medium" then 40
    else if ml = "high" then 20 else 40
  clamp0100 (base + calculate_external_stress u)

/-- `_calculate_sustainability_score`. -/
def calculate_sustainability_score (demand avail recovery stress : ℚ) : ℚ :=
  let balance_factor := clamp0100 (50 + (avail - demand))
  clamp0100 (balance_factor * 0.4 + recovery * 0.35 + (100 - stress) * 0.25)

/-- `_determine_balance_status` (`recovery_critical_threshold = 30`). -/
def determine_balance_status (demand avail recovery : ℚ) : String :=
  let balance := avail - demand
  if balance < -20 ∨ recovery < 30 then "deficit"
  else if balance > 20 ∧ recovery > 70 then "surplus"
  else "balanced"

/-- `assess_energy_balance`. -/
def assess_energy_balance (props : Proposals) (u : UserData) : EnergyBalance :=
  let demand := calculate_energy_demand props.fitness
  let avail := calculate_energy_availability props.nutrition props.sleep
  let recovery := calculate_recovery_capacity props.sleep u
  let stress := calculate_stress_load props.mental u
  { energy_demand := demand
    energy_availability := avail
    recovery_capacity := recovery
    stress_load := stress
    sustainability_score := calculate_sustainability_score demand avail recovery stress
    balance_status := determine_balance_status demand avail recovery }

/-- `_get_nutrition_adequacy`. -/
def get_nutrition_adequacy (np : Option NutritionProp) : ℚ :=
  let na := (np.bind (·.nutritional_adequacy)).getD "medium"
  if na = "low" then 30 else if na = "medium" then 65
  else if na = "high" then 90 else 65

/-- `_get_training_load`. -/
def get_training_load (fp : Option FitnessProp) : ℚ :=
  (fp.bind (·.training_load_score)).getD 50

/-- `detect_energy_conflicts`: the five base rules in source order, then
`MULTIPLE_STRESSORS` is appended iff at least two base conflicts fired. -/
def detect_energy_conflicts (bal : EnergyBalance) (props : Proposals)
    (u : UserData) : List EnergyConflictType :=
  let base :=
    (if bal.energy_demand > 70 ∧ bal.recovery_capacity < 30 then
      [EnergyConflictType.high_demand_low_recovery] else []) ++
    (if bal.energy_demand > 60 ∧ get_nutrition_adequacy props.nutrition < 50 then
      [EnergyConflictType.insufficient_nutrition] else []) ++
    (if calculate_sleep_debt u > 2 then
      [EnergyConflictType.sleep_debt_accumulation] else []) ++
    (if get_training_load props.fitness > 80 then
      [EnergyConflictType.overtraining_risk] else []) ++
    (if bal.stress_load > 75 then
      [EnergyConflictType.stress_overload] else [])
  if base.length ≥ 2 then base ++ [EnergyConflictType.multiple_stressors] else base

/-- `_determine_priority_level`. -/
def determine_priority_level (cs : List EnergyConflictType)
    (bal : EnergyBalance) : String :=
  if EnergyConflictType.multiple_stressors ∈ cs ∨
      bal.recovery_capacity < 25 ∨ bal.sustainability_score < 30 then "critical"
  else if cs.length ≥ 2 ∨
      EnergyConflictType.high_demand_low_recovery ∈ cs ∨
      EnergyConflictType.overtraining_risk ∈ cs ∨
      bal.balance_status = "deficit" then "high"
  else if cs.length = 1 ∨ bal.recovery_capacity < 50 ∨
      bal.sustainability_score < 60 then "medium"
  else "low"

/-- `_identify_affected_domains`.  Python collects the domains in a `set`;
membership is all downstream code ever queries, so a duplicate-free list in
insertion order is used here. -/
def identify_affected_domains (cs : List EnergyConflictType) : List String :=
  ["sleep"] ++
  (if EnergyConflictType.high_demand_low_recovery ∈ cs ∨
      EnergyConflictType.overtraining_risk ∈ cs ∨
      EnergyConflictType.multiple_stressors ∈ cs then ["fitness"] else []) ++
  (if EnergyConflictType.insufficient_nutrition ∈ cs ∨
      EnergyConflictType.high_demand_low_recovery ∈ cs then ["nutrition"] else []) ++
  (if EnergyConflictType.stress_overload ∈ cs ∨
      EnergyConflictType.multiple_stressors ∈ cs then ["mental_wellness"] else [])

/-- `_generate_recovery_interventions`. -/
def generate_recovery_interventions (cs : List EnergyConflictType)
    (bal : EnergyBalance) : List String :=
  (if EnergyConflictType.sleep_debt_accumulation ∈ cs ∨ bal.recovery_capacity < 40 then
    ["Prioritize sleep duration (aim for 8 plus hours nightly)",
     "Implement consistent sleep schedule",
     "Optimize sleep environment for quality"] else []) ++
  (if EnergyConflictType.high_demand_low_recovery ∈ cs ∨
      EnergyConflictType.overtraining_risk ∈ cs then
    ["Reduce training intensity by 20-30 percent",
     "Add extra rest day between intense sessions",
     "Focus on active recovery activities"] else []) ++
  (if EnergyConflictType.insufficient_nutrition ∈ cs then
    ["Increase caloric intake to match energy demands",
     "Optimize pre and post workout nutrition timing",
     "Ensure adequate protein for recovery"] else []) ++
  (if EnergyConflictType.stress_overload ∈ cs ∨ bal.stress_load > 70 then
    ["Implement stress reduction techniques",
     "Simplify wellness plan complexity",
     "Consider meditation or relaxation practices"] else []) ++
  (if EnergyConflictType.multiple_stressors ∈ cs then
    ["Implement comprehensive recovery protocol",
     "Temporarily reduce all wellness demands",
     "Focus on basic health maintenance only"] else [])

/-- Occurrence of `needle` as a contiguous sublist, used for Python
`needle in haystack`. -/
def subOccurs (needle : List Char) : List Char → Bool
  | [] => needle.isEmpty
  | c :: rest => needle.isPrefixOf (c :: rest) || subOccurs needle rest

/-- Python `str.lower` (character-wise). -/
def strLower (s : String) : String := String.mk (s.data.map Char.toLower)

/-- Python `needle in haystack` on strings. -/
def containsSub (hay needle : String) : Bool :=
  subOccurs needle.data hay.data

/-- `_identify_recovery_trade_offs`.  The two `… in str(interventions).lower()`
checks are modelled as per-item substring containment (the needles never span
the list separators of Python `str(list)`). -/
def identify_recovery_trade_offs (cs : List EnergyConflictType)
    (interventions : List String) (props : Proposals) : List String :=
  (if (props.fitness.bind (·.energy_demand)) = some "high" then
    ["Reduced fitness intensity for recovery prioritization",
     "Delayed fitness progression to ensure sustainability"] else []) ++
  (if (props.nutrition.bind (·.budget_utilization)).getD 0 > 0.8 then
    ["May require increased food budget for adequate nutrition"] else []) ++
  (if interventions.any (fun s => containsSub (strLower s) "sleep duration") then
    ["Increased sleep time may reduce available time for other activities"] else []) ++
  (if interventions.any (fun s => containsSub (strLower s) "simplify") then
    ["Simplified plans may progress more slowly toward goals"] else []) ++
  (if cs.length ≥ 2 then
    ["Extended timeline for achieving wellness goals",
     "Focus on sustainability over aggressive optimization"] else [])

/-- `_determine_recovery_timeline`. -/
def determine_recovery_timeline (priority_level : String) : String :=
  if priority_level = "critical" then "immediate"
  else if priority_level = "high" then "short_term"
  else if priority_level = "medium" then "medium_term"
  else "ongoing"

/-- `_calculate_recovery_confidence`. -/
def calculate_recovery_confidence (bal : EnergyBalance) (conflict_count : ℕ)
    (interventions : List String) : ℚ :=
  let base : ℚ := 0.8
  let conflict_penalty := min 0.3 ((conflict_count : ℚ) * 0.1)
  let balance_penalty : ℚ := if bal.balance_status = "deficit" then 0.1 else 0
  let intervention_bonus := min 0.2 ((interventions.length : ℚ) * 0.02)
  max 0.3 (min 1 (base - conflict_penalty - balance_penalty + intervention_bonus))

/-- `prioritize_recovery`. -/
def prioritize_recovery (cs : List EnergyConflictType) (bal : EnergyBalance)
    (props : Proposals) : RecoveryPriority :=
  let priority_level := determine_priority_level cs bal
  let interventions := generate_recovery_interventions cs bal
  { priority_level := priority_level
    affected_domains := identify_affected_domains cs
    interventions := interventions
    trade_offs := identify_recovery_trade_offs cs interventions props
    timeline := determine_recovery_timeline priority_level
    confidence := calculate_recovery_confidence bal cs.length interventions }

/-! ## CoordinatorAgent (`coordinator_agent.py`) -/

namespace Coordinator

/-- `ConflictType` enum. -/
inductive ConflictType where
  | energy_conflict
  | time_conflict
  | budget_conflict
  | recovery_conflict
  | nutritional_conflict
  | motivation_conflict
  deriving DecidableEq, Repr

def ConflictType.value : ConflictType → String
  | .energy_conflict => "energy_conflict"
  | .time_conflict => "time_conflict"
  | .budget_conflict => "budget_conflict"
  | .recovery_conflict => "recovery_conflict"
  | .nutritional_conflict => "nutritional_conflict"
  | .motivation_conflict => "motivation_conflict"

/-- The `reasoning` string of a `ConflictResolution`, modelled by the data the
source f-string interpolates (the other reasonings are string constants). -/
inductive ConflictReason where
  | energy
  | time (total_needed max_available : ℚ)
  | budget (budget_utilization : ℚ)
  | recovery
  | nutritional
  | motivation
  deriving DecidableEq, Repr

/-- `ConflictResolution` dataclass. -/
structure ConflictResolution where
  conflict_type : ConflictType
  affected_agents : List String
  resolution_strategy : String
  trade_offs_made : List String
  confidence_impact : ℚ
  reasoning : ConflictReason
  deriving DecidableEq, Repr

/-- `ConflictResolution.to_dict` (the enum is rendered to its `.value`). -/
structure ResolutionDict where
  conflict_type : String
  affected_agents : List String
  resolution_strategy : String
  trade_offs_made : List String
  confidence_impact : ℚ
  reasoning : ConflictReason
  deriving DecidableEq, Repr

def ConflictResolution.to_dict (c : ConflictResolution) : ResolutionDict :=
  { conflict_type := c.conflict_type.value
    affected_agents := c.affected_agents
    resolution_strategy := c.resolution_strategy
    trade_offs_made := c.trade_offs_made
    confidence_impact := c.confidence_impact
    reasoning := c.reasoning }

/-! ### Validation -/

/-- Per-agent validation record.  `valid` is always `True` in the source
(`_validate_single_agent_proposal` never sets it to `False`), and `errors`
always stays `[]`; both are kept for shape fidelity. -/
structure AgentValidation where
  valid : Bool
  errors : List String
  warnings : List String
  defaults_added : List String
  deriving DecidableEq, Repr

/-- Confidence normalisation step shared by all four validators.  A non-numeric
confidence is not representable in this typed model (the field is `Option ℚ`),
so only the missing and out-of-range branches appear. -/
def validate_confidence (c : Option ℚ) : ℚ :=
  match c with
  | none => 0.5
  | some c => if 0 ≤ c ∧ c ≤ 1 then c else max 0 (min 1 c)

/-- Warnings emitted by the confidence normalisation step. -/
def confidence_warnings (c : Option ℚ) : List String :=
  match c with
  | none => ["Added default confidence value"]
  | some c => if 0 ≤ c ∧ c ≤ 1 then [] else ["Confidence clamped to [0, 1]"]

/-- `defaults_added` entries of the confidence normalisation step. -/
def confidence_defaults (c : Option ℚ) : List String :=
  match c with
  | none => ["confidence=0.5"]
  | some _ => []

/-- Default `workout_plan` injected by validation: carries only keys the engine
never reads or writes (focus, sessions, weekly_volume, …), hence `extra`. -/
def defaultWorkoutPlan : WorkoutPlan := { extra := true }

/-- Default `meal_plan` injected by validation (`focus: 'balanced_nutrition'`
plus unread keys). -/
def defaultMealPlan : MealPlan := { focus := some "balanced_nutrition", extra := true }

/-- Default `sleep_recommendations` injected by validation. -/
def defaultSleepRecs : SleepRecs := { extra := true }

/-- Default `wellness_recommendations` injected by validation
(`focus: 'stress_management'` plus unread keys). -/
def defaultWellnessRecs : WellnessRecs := { focus := some "stress_management", extra := true }

/-- Default `complexity_adjustments`: `{'simplification_needed': False}`. -/
def defaultComplexityAdjustments : ComplexityAdjustments :=
  { simplification_needed := some false }

/-- `_validate_single_agent_proposal` for `FitnessAgent` (mutates in place;
the updated proposal is returned). -/
def validate_fitness (p : FitnessProp) : FitnessProp × AgentValidation :=
  ({ p with
      confidence := some (validate_confidence p.confidence)
      reasoning := some (p.reasoning.getD "Generated by wellness agent")
      workout_plan := some (p.workout_plan.getD defaultWorkoutPlan)
      energy_demand := some (p.energy_demand.getD "medium")
      training_load_score := some (p.training_load_score.getD 55)
      overtraining_risk := some (p.overtraining_risk.getD "low") },
   { valid := true
     errors := []
     warnings := confidence_warnings p.confidence ++
       (if p.workout_plan.isNone then ["Added default workout_plan"] else []) ++
       (if p.energy_demand.isNone then ["Added default energy_demand"] else []) ++
       (if p.training_load_score.isNone then ["Added default training_load_score"] else []) ++
       (if p.overtraining_risk.isNone then ["Added default overtraining_risk"] else [])
     defaults_added := confidence_defaults p.confidence ++
       (if p.reasoning.isNone then ["reasoning"] else []) ++
       (if p.workout_plan.isNone then ["workout_plan"] else []) ++
       (if p.energy_demand.isNone then ["energy_demand"] else []) ++
       (if p.training_load_score.isNone then ["training_load_score"] else []) ++
       (if p.overtraining_risk.isNone then ["overtraining_risk"] else []) })

/-- `_validate_single_agent_proposal` for `NutritionAgent`. -/
def validate_nutrition (p : NutritionProp) : NutritionProp × AgentValidation :=
  ({ p with
      confidence := some (validate_confidence p.confidence)
      reasoning := some (p.reasoning.getD "Generated by wellness agent")
      meal_plan := some (p.meal_plan.getD defaultMealPlan)
      nutritional_adequacy := some (p.nutritional_adequacy.getD "high")
      budget_utilization := some (p.budget_utilization.getD 0.75) },
   { valid := true
     errors := []
     warnings := confidence_warnings p.confidence ++
       (if p.meal_plan.isNone then ["Added default meal_plan"] else []) ++
       (if p.nutritional_adequacy.isNone then ["Added default nutritional_adequacy"] else []) ++
       (if p.budget_utilization.isNone then ["Added default budget_utilization"] else [])
     defaults_added := confidence_defaults p.confidence ++
       (if p.reasoning.isNone then ["reasoning"] else []) ++
       (if p.meal_plan.isNone then ["meal_plan"] else []) ++
       (if p.nutritional_adequacy.isNone then ["nutritional_adequacy"] else []) ++
       (if p.budget_utilization.isNone then ["budget_utilization"] else []) })

/-- `_validate_single_agent_proposal` for `SleepAgent`. -/
def validate_sleep (p : SleepProp) : SleepProp × AgentValidation :=
  ({ p with
      confidence := some (validate_confidence p.confidence)
      reasoning := some (p.reasoning.getD "Generated by wellness agent")
      sleep_recommendations := some (p.sleep_recommendations.getD defaultSleepRecs)
      recovery_status := some (p.recovery_status.getD "good")
      sleep_quality_target := some (p.sleep_quality_target.getD 85) },
   { valid := true
     errors := []
     warnings := confidence_warnings p.confidence ++
       (if p.sleep_recommendations.isNone then ["Added default sleep_recommendations"] else []) ++
       (if p.recovery_status.isNone then ["Added default recovery_status"] else []) ++
       (if p.sleep_quality_target.isNone then ["Added default sleep_quality_target"] else [])
     defaults_added := confidence_defaults p.confidence ++
       (if p.reasoning.isNone then ["reasoning"] else []) ++
       (if p.sleep_recommendations.isNone then ["sleep_recommendations"] else []) ++
       (if p.recovery_status.isNone then ["recovery_status"] else []) ++
       (if p.sleep_quality_target.isNone then ["sleep_quality_target"] else []) })

/-- `_validate_single_agent_proposal` for `MentalWellnessAgent`. -/
def validate_mental (p : MentalProp) : MentalProp × AgentValidation :=
  ({ p with
      confidence := some (validate_confidence p.confidence)
      reasoning := some (p.reasoning.getD "Generated by wellness agent")
      wellness_recommendations := some (p.wellness_recommendations.getD defaultWellnessRecs)
      motivation_level := some (p.motivation_level.getD "medium")
      complexity_adjustments := some (p.complexity_adjustments.getD defaultComplexityAdjustments) },
   { valid := true
     errors := []
     warnings := confidence_warnings p.confidence ++
       (if p.wellness_recommendations.isNone then ["Added default wellness_recommendations"] else []) ++
       (if p.motivation_level.isNone then ["Added default motivation_level"] else []) ++
       (if p.complexity_adjustments.isNone then ["Added default complexity_adjustments"] else [])
     defaults_added := confidence_defaults p.confidence ++
       (if p.reasoning.isNone then ["reasoning"] else []) ++
       (if p.wellness_recommendations.isNone then ["wellness_recommendations"] else []) ++
       (if p.motivation_level.isNone then ["motivation_level"] else []) ++
       (if p.complexity_adjustments.isNone then ["complexity_adjustments"] else []) })

/-- Result shape of `_validate_all_proposals`.  `agent_validations` is split
into the four possible slots. -/
structure ValidationResults where
  all_valid : Bool
  missing_agents : List String
  invalid_proposals : List String
  fitness_validation : Option AgentValidation
  nutrition_validation : Option AgentValidation
  sleep_validation : Option AgentValidation
  mental_validation : Option AgentValidation
  deriving DecidableEq, Repr

/-- `_validate_all_proposals`.  Validation of the present proposals mutates
them in place, so the updated proposal map is returned alongside the results;
`all_valid` can only be cleared by a missing expected agent
(`_validate_single_agent_proposal` never reports `valid=False`). -/
def validate_all_proposals (props : Proposals) : Proposals × ValidationResults :=
  let missing :=
    (if props.fitness.isNone then ["FitnessAgent"] else []) ++
    (if props.nutrition.isNone then ["NutritionAgent"] else []) ++
    (if props.sleep.isNone then ["SleepAgent"] else []) ++
    (if props.mental.isNone then ["MentalWellnessAgent"] else [])
  let fv := props.fitness.map validate_fitness
  let nv := props.nutrition.map validate_nutrition
  let sv := props.sleep.map validate_sleep
  let mv := props.mental.map validate_mental
  ({ fitness := fv.map Prod.fst
     nutrition := nv.map Prod.fst
     sleep := sv.map Prod.fst
     mental := mv.map Prod.fst },
   { all_valid := missing = []
     missing_agents := missing
     invalid_proposals := []
     fitness_validation := fv.map Prod.snd
     nutrition_validation := nv.map Prod.snd
     sleep_validation := sv.map Prod.snd
     mental_validation := mv.map Prod.snd })

/-! ### Recovery prioritization applied to proposals -/

/-- Fitness part of `_apply_recovery_prioritization`. -/
def applyRecoveryFitness (p : FitnessProp) (rp : RecoveryPriority) : FitnessProp :=
  let current := p.energy_demand.getD "medium"
  let ed := if current = "high" then some "medium"
    else if current = "medium" then some "low" else p.energy_demand
  let wp := match p.workout_plan with
    | some w => if w.truthy then
        some { w with
          recovery_prioritization := some true
          intensity_reduction := some "recovery_focused"
          modification_reason := some ("Recovery prioritization: " ++ rp.priority_level) }
      else some w
    | none => none
  { p with
    energy_demand := ed
    workout_plan := wp
    confidence := some (max 0.3 (p.confidence.getD 0.5 - 0.1)) }

/-- Sleep part of `_apply_recovery_prioritization`.  When
`sleep_recommendations` is absent the source mutates a fresh dict that is never
stored back, so the flags are lost; `constraints_for_others` is stored back. -/
def applyRecoverySleep (p : SleepProp) (rp : RecoveryPriority) : SleepProp :=
  let sr := match p.sleep_recommendations with
    | some r => some { r with
        recovery_prioritization := some true
        priority_level := some rp.priority_level }
    | none => none
  let cfo := p.constraints_for_others.getD {}
  { p with
    sleep_recommendations := sr
    constraints_for_others := some { cfo with
      recovery_priority := some rp.priority_level
      max_training_intensity :=
        some (if rp.priority_level = "critical" then "medium" else "moderate") } }

/-- Nutrition part of `_apply_recovery_prioritization`. -/
def applyRecoveryNutrition (p : NutritionProp) : NutritionProp :=
  let mp := match p.meal_plan with
    | some m => if m.truthy then
        some { m with
          recovery_optimization := some true
          focus := some "recovery_and_energy_availability" }
      else some m
    | none => none
  { p with
    meal_plan := mp
    adequacy_priority := if p.nutritional_adequacy = some "low" then some "critical"
      else p.adequacy_priority }

/-- Mental-wellness part of `_apply_recovery_prioritization`.  As for sleep,
flags set on an absent `wellness_recommendations` dict are lost;
`complexity_adjustments` is stored back. -/
def applyRecoveryMental (p : MentalProp) : MentalProp :=
  let wr := match p.wellness_recommendations with
    | some w => some { w with
        complexity_reduction := some true
        focus := some "stress_reduction_and_recovery" }
    | none => none
  let ca := p.complexity_adjustments.getD {}
  { p with
    wellness_recommendations := wr
    complexity_adjustments := some { ca with
      simplification_needed := some true
      reason := some "recovery_prioritization" } }

/-- `_apply_recovery_prioritization`: mutates proposals only when the priority
level is `critical` or `high`, and within each branch only when the proposal is
present and truthy (`agent_proposals.get(name, {})` followed by `if proposal:`). -/
def apply_recovery_prioritization (props : Proposals) (rp : RecoveryPriority) :
    Proposals :=
  if rp.priority_level = "critical" ∨ rp.priority_level = "high" then
    let fitness := if "fitness" ∈ rp.affected_domains then
        match props.fitness with
        | some p => if p.truthy then some (applyRecoveryFitness p rp) else some p
        | none => none
      else props.fitness
    let sleep := if "sleep" ∈ rp.affected_domains then
        match props.sleep with
        | some p => if p.truthy then some (applyRecoverySleep p rp) else some p
        | none => none
      else props.sleep
    let nutrition := if "nutrition" ∈ rp.affected_domains then
        match props.nutrition with
        | some p => if p.truthy then some (applyRecoveryNutrition p) else some p
        | none => none
      else props.nutrition
    let mental := if "mental_wellness" ∈ rp.affected_domains then
        match props.mental with
        | some p => if p.truthy then some (applyRecoveryMental p) else some p
        | none => none
      else props.mental
    { fitness := fitness, nutrition := nutrition, sleep := sleep, mental := mental }
  else props

/-! ### Conflict detection (`_detect_conflicts` and the six rules) -/

/-- `_detect_energy_conflicts` (the coordinator-side rule, distinct from the
recovery engine's `detect_energy_conflicts`). -/
def detect_energy_conflict (props : Proposals) : Option ConflictResolution :=
  let fed := (props.fitness.bind (·.energy_demand)).getD "medium"
  let na := (props.nutrition.bind (·.nutritional_adequacy)).getD "medium"
  let rs := (props.sleep.bind (·.recovery_status)).getD "fair"
  if fed = "high" ∧ (na = "low" ∨ rs = "poor" ∨ rs = "fair") then
    some { conflict_type := .energy_conflict
           affected_agents := ["FitnessAgent", "NutritionAgent", "SleepAgent"]
           resolution_strategy := "reduce_fitness_intensity_or_improve_nutrition_recovery"
           trade_offs_made := []
           confidence_impact := -0.1
           reasoning := .energy }
  else none

/-- `_detect_time_conflicts`. -/
def detect_time_conflict (props : Proposals) (cons : Constraints) :
    Option ConflictResolution :=
  let wp := props.fitness.bind (·.workout_plan)
  let wpTruthy := match wp with | some w => w.truthy | none => false
  let fitness_time : ℚ := match wp with
    | some w => if w.truthy then (w.weekly_schedule.getD []).sum else 0
    | none => 0
  let mp := props.nutrition.bind (·.meal_plan)
  let mpTruthy := match mp with | some m => m.truthy | none => false
  let prep_time : ℚ := match mp with
    | some m => if m.truthy then m.total_prep_time_minutes.getD 0 else 0
    | none => 0
  let total := fitness_time + prep_time
  let agents :=
    (if wpTruthy then (if fitness_time > 0 then ["FitnessAgent"] else []) else []) ++
    (if mpTruthy then (if prep_time > 0 then ["NutritionAgent"] else []) else [])
  let max_weekly := cons.max_weekly_minutes.getD 600
  if total > max_weekly then
    some { conflict_type := .time_conflict
           affected_agents := agents
           resolution_strategy := "reduce_time_demands_or_increase_efficiency"
           trade_offs_made := []
           confidence_impact := -0.15
           reasoning := .time total max_weekly }
  else none

/-- `_detect_budget_conflicts` (`weekly_food_budget` is read but unused). -/
def detect_budget_conflict (props : Proposals) : Option ConflictResolution :=
  let bu := (props.nutrition.bind (·.budget_utilization)).getD 0
  if bu > 0.9 then
    some { conflict_type := .budget_conflict
           affected_agents := ["NutritionAgent"]
           resolution_strategy := "optimize_nutrition_costs_or_adjust_goals"
           trade_offs_made := []
           confidence_impact := -0.1
           reasoning := .budget bu }
  else none

/-- `_detect_recovery_conflicts`. -/
def detect_recovery_conflict (props : Proposals) : Option ConflictResolution :=
  let rs := (props.sleep.bind (·.recovery_status)).getD "fair"
  let fed := (props.fitness.bind (·.energy_demand)).getD "medium"
  if rs = "poor" ∧ fed = "high" then
    some { conflict_type := .recovery_conflict
           affected_agents := ["FitnessAgent", "SleepAgent"]
           resolution_strategy := "prioritize_recovery_reduce_training_intensity"
           trade_offs_made := []
           confidence_impact := -0.2
           reasoning := .recovery }
  else none

/-- `_detect_nutritional_conflicts`. -/
def detect_nutritional_conflict (props : Proposals) : Option ConflictResolution :=
  let na := (props.nutrition.bind (·.nutritional_adequacy)).getD "medium"
  let fed := (props.fitness.bind (·.energy_demand)).getD "medium"
  if na = "low" ∧ fed = "high" then
    some { conflict_type := .nutritional_conflict
           affected_agents := ["NutritionAgent", "FitnessAgent"]
           resolution_strategy := "improve_nutrition_or_reduce_fitness_demands"
           trade_offs_made := []
           confidence_impact := -0.15
           reasoning := .nutritional }
  else none

/-- `_detect_motivation_conflicts`. -/
def detect_motivation_conflict (props : Proposals) : Option ConflictResolution :=
  let ml := (props.mental.bind (·.motivation_level)).getD "medium"
  let ca := (props.mental.bind (·.complexity_adjustments)).getD {}
  if ml = "low" ∧ ca.simplification_needed.getD false then
    let agents :=
      (if ((props.fitness.bind (·.workout_plan)).getD {}).complexity.getD "medium" = "high"
        then ["FitnessAgent"] else []) ++
      (if ((props.nutrition.bind (·.meal_plan)).getD {}).complexity.getD "medium" = "high"
        then ["NutritionAgent"] else [])
    if agents ≠ [] then
      some { conflict_type := .motivation_conflict
             affected_agents := agents ++ ["MentalWellnessAgent"]
             resolution_strategy := "simplify_plans_to_match_motivation_capacity"
             trade_offs_made := []
             confidence_impact := -0.1
             reasoning := .motivation }
    else none
  else none

/-- `_detect_conflicts`: the six rules in source order. -/
def detect_conflicts (props : Proposals) (cons : Constraints) :
    List ConflictResolution :=
  (detect_energy_conflict props).toList ++
  (detect_time_conflict props cons).toList ++
  (detect_budget_conflict props).toList ++
  (detect_recovery_conflict props).toList ++
  (detect_nutritional_conflict props).toList ++
  (detect_motivation_conflict props).toList

/-! ### Conflict resolution -/

/-- The fixed priority table of `_prioritize_conflicts` (lower number resolves
first; Python `priority_order.get(…, 10)` default never fires, the table is
total on the enum). -/
def ConflictType.priority : ConflictType → ℕ
  | .recovery_conflict => 1
  | .energy_conflict => 2
  | .time_conflict => 3
  | .budget_conflict => 4
  | .nutritional_conflict => 5
  | .motivation_conflict => 6

/-- `_prioritize_conflicts`: `sorted(conflicts, key=priority)`.  Python
`sorted` is stable; `List.insertionSort` is a stable sort on the same key
order. -/
def prioritize_conflicts (l : List ConflictResolution) : List ConflictResolution :=
  l.insertionSort (fun a b => a.conflict_type.priority ≤ b.conflict_type.priority)

/-- `_resolve_recovery_conflict`. -/
def resolve_recovery_conflict (c : ConflictResolution) (props : Proposals) :
    ConflictResolution × Proposals :=
  let fed := props.fitness.bind (·.energy_demand)
  let (trade_offs, props) :=
    if fed = some "high" then
      (["Reduced fitness intensity from high to medium for recovery"],
       { props with fitness := props.fitness.map (fun p =>
          { p with
            energy_demand := some "medium"
            workout_plan := match p.workout_plan with
              | some w => if w.truthy then
                  some { w with
                    intensity_adjustment := some "reduced_for_recovery"
                    modification_reason :=
                      some "Poor recovery status requires intensity reduction" }
                else some w
              | none => none }) })
    else ([], props)
  ({ c with
     resolution_strategy := "prioritize_recovery_reduce_training_intensity"
     trade_offs_made := trade_offs
     confidence_impact := -0.1 }, props)

/-- `_resolve_energy_conflict` (the fitness reduction is nested inside the
low-adequacy branch in the source). -/
def resolve_energy_conflict (c : ConflictResolution) (props : Proposals) :
    ConflictResolution × Proposals :=
  let na := props.nutrition.bind (·.nutritional_adequacy)
  let fed := props.fitness.bind (·.energy_demand)
  let (trade_offs, props) :=
    if na = some "low" then
      let props := { props with nutrition := props.nutrition.map (fun p =>
        { p with priority_adjustment := some "increase_adequacy" }) }
      if fed = some "high" then
        (["Prioritized nutritional adequacy improvement",
          "Reduced fitness intensity to match energy availability"],
         { props with fitness := props.fitness.map (fun p =>
            { p with energy_demand := some "medium" }) })
      else (["Prioritized nutritional adequacy improvement"], props)
    else ([], props)
  ({ c with
     resolution_strategy := "balance_energy_supply_and_demand"
     trade_offs_made := trade_offs
     confidence_impact := -0.05 }, props)

/-- `_resolve_time_conflict`. -/
def resolve_time_conflict (c : ConflictResolution) (props : Proposals) :
    ConflictResolution × Proposals :=
  let wpTruthy := match props.fitness.bind (·.workout_plan) with
    | some w => w.truthy | none => false
  let mpTruthy := match props.nutrition.bind (·.meal_plan) with
    | some m => m.truthy | none => false
  let props := if wpTruthy then
      { props with fitness := props.fitness.map (fun p =>
        { p with workout_plan := p.workout_plan.map (fun w =>
          { w with time_optimization := some "high_efficiency_focus" }) }) }
    else props
  let props := if mpTruthy then
      { props with nutrition := props.nutrition.map (fun p =>
        { p with meal_plan := p.meal_plan.map (fun m =>
          { m with prep_optimization := some "quick_prep_focus" }) }) }
    else props
  ({ c with
     resolution_strategy := "optimize_for_time_efficiency"
     trade_offs_made :=
       (if wpTruthy then ["Optimized workout plan for time efficiency"] else []) ++
       (if mpTruthy then ["Simplified meal prep for time savings"] else [])
     confidence_impact := -0.1 }, props)

/-- `_resolve_budget_conflict`: clamps `budget_utilization` to
`min(current, 0.85)` — but only when the `meal_plan` dict is truthy. -/
def resolve_budget_conflict (c : ConflictResolution) (props : Proposals) :
    ConflictResolution × Proposals :=
  let mpTruthy := match props.nutrition.bind (·.meal_plan) with
    | some m => m.truthy | none => false
  let (trade_offs, props) :=
    if mpTruthy then
      (["Optimized meal plan for budget constraints"],
       { props with nutrition := props.nutrition.map (fun p =>
          { p with
            meal_plan := p.meal_plan.map (fun m =>
              { m with cost_optimization := some "maximum_efficiency" })
            budget_utilization := some (min (p.budget_utilization.getD 0.9) 0.85) }) })
    else ([], props)
  ({ c with
     resolution_strategy := "optimize_nutrition_for_budget"
     trade_offs_made := trade_offs
     confidence_impact := -0.05 }, props)

/-- `_resolve_nutritional_conflict`. -/
def resolve_nutritional_conflict (c : ConflictResolution) (props : Proposals) :
    ConflictResolution × Proposals :=
  let na := props.nutrition.bind (·.nutritional_adequacy)
  let fed := props.fitness.bind (·.energy_demand)
  let (trade_offs, props) :=
    if na = some "low" then
      let props := { props with nutrition := props.nutrition.map (fun p =>
        { p with adequacy_priority := some "high" }) }
      if fed = some "high" then
        (["Prioritized nutritional adequacy over fitness intensity",
          "Reduced fitness intensity to match nutritional capacity"],
         { props with fitness := props.fitness.map (fun p =>
            { p with energy_demand := some "medium" }) })
      else (["Prioritized nutritional adequacy over fitness intensity"], props)
    else ([], props)
  ({ c with
     resolution_strategy := "prioritize_nutritional_adequacy"
     trade_offs_made := trade_offs
     confidence_impact := -0.1 }, props)

/-- One step of the `for agent_name in conflict.affected_agents` loop of
`_resolve_motivation_conflict`. -/
def motivationStep (acc : Proposals × List String) (agent : String) :
    Proposals × List String :=
  let (props, trades) := acc
  if agent = "FitnessAgent" then
    let wpTruthy := match props.fitness.bind (·.workout_plan) with
      | some w => w.truthy | none => false
    if wpTruthy then
      ({ props with fitness := props.fitness.map (fun p =>
          { p with workout_plan := p.workout_plan.map (fun w =>
            { w with complexity_reduction := some "simplified_for_motivation" }) }) },
       trades ++ ["Simplified workout plan for better adherence"])
    else (props, trades)
  else if agent = "NutritionAgent" then
    let mpTruthy := match props.nutrition.bind (·.meal_plan) with
      | some m => m.truthy | none => false
    if mpTruthy then
      ({ props with nutrition := props.nutrition.map (fun p =>
          { p with meal_plan := p.meal_plan.map (fun m =>
            { m with complexity_reduction := some "simplified_for_motivation" }) }) },
       trades ++ ["Simplified meal plan for better adherence"])
    else (props, trades)
  else (props, trades)

/-- `_resolve_motivation_conflict`. -/
def resolve_motivation_conflict (c : ConflictResolution) (props : Proposals) :
    ConflictResolution × Proposals :=
  let (props, trade_offs) := c.affected_agents.foldl motivationStep (props, [])
  ({ c with
     resolution_strategy := "simplify_plans_for_motivation"
     trade_offs_made := trade_offs
     confidence_impact := -0.05 }, props)

/-- `_resolve_single_conflict`.  The Python `else` branch
(`_resolve_generic_conflict`) is unreachable: `ConflictType` is a closed enum
fully covered by the dispatch. -/
def resolve_single_conflict (c : ConflictResolution) (props : Proposals) :
    ConflictResolution × Proposals :=
  match c.conflict_type with
  | .recovery_conflict => resolve_recovery_conflict c props
  | .energy_conflict => resolve_energy_conflict c props
  | .time_conflict => resolve_time_conflict c props
  | .budget_conflict => resolve_budget_conflict c props
  | .nutritional_conflict => resolve_nutritional_conflict c props
  | .motivation_conflict => resolve_motivation_conflict c props

/-- `_apply_conflict_resolution`: for each affected agent present in the map,
`confidence = max(0.1, confidence + impact)`. -/
def apply_conflict_resolution (props : Proposals) (c : ConflictResolution) :
    Proposals :=
  c.affected_agents.foldl (fun props agent =>
    if agent = "FitnessAgent" then
      { props with fitness := props.fitness.map (fun p =>
        { p with confidence := some (max 0.1 (p.confidence.getD 0.5 + c.confidence_impact)) }) }
    else if agent = "NutritionAgent" then
      { props with nutrition := props.nutrition.map (fun p =>
        { p with confidence := some (max 0.1 (p.confidence.getD 0.5 + c.confidence_impact)) }) }
    else if agent = "SleepAgent" then
      { props with sleep := props.sleep.map (fun p =>
        { p with confidence := some (max 0.1 (p.confidence.getD 0.5 + c.confidence_impact)) }) }
    else if agent = "MentalWellnessAgent" then
      { props with mental := props.mental.map (fun p =>
        { p with confidence := some (max 0.1 (p.confidence.getD 0.5 + c.confidence_impact)) }) }
    else props) props

/-- The resolution loop of `_resolve_conflicts_with_optimization`: resolve each
conflict in (already prioritized) order, applying the resolution to the
proposals after each step. -/
def resolve_loop (cs : List ConflictResolution) (props : Proposals) :
    List ConflictResolution × Proposals :=
  match cs with
  | [] => ([], props)
  | c :: rest =>
    let (c2, props2) := resolve_single_conflict c props
    let props3 := apply_conflict_resolution props2 c2
    let (resolved, finalProps) := resolve_loop rest props3
    (c2 :: resolved, finalProps)

/-- `_resolve_conflicts_with_optimization` (without the wall-clock timing,
which is injected in `coordinate_agent_proposals` below). -/
def resolve_conflicts_with_optimization (props : Proposals)
    (conflicts : List ConflictResolution) : List ConflictResolution × Proposals :=
  resolve_loop (prioritize_conflicts conflicts) props

/-! ### Plan aggregation and result envelopes -/

/-- The `unified_plan` output map.  Python sets one slot per present agent;
an all-`none` value is the empty dict of the failure envelopes. -/
structure UnifiedMap where
  fitness : Option WorkoutPlan := none
  nutrition : Option MealPlan := none
  sleep : Option SleepRecs := none
  mental_wellness : Option WellnessRecs := none
  deriving DecidableEq, Repr

/-- One entry of `agent_contributions`. -/
structure AgentContribution where
  confidence : ℚ
  contribution_type : String
  modifications : List String
  deriving DecidableEq, Repr

/-- The `agent_contributions` map (one optional slot per expected agent). -/
structure Contributions where
  fitness : Option AgentContribution := none
  nutrition : Option AgentContribution := none
  sleep : Option AgentContribution := none
  mental : Option AgentContribution := none
  deriving DecidableEq, Repr

/-- `optimization_metrics`. -/
structure OptimizationMetrics where
  total_agents : ℕ
  conflicts_count : ℕ
  optimization_time_ms : ℚ
  deriving DecidableEq, Repr

/-- The top-level `reasoning` string of a coordination result, modelled by the
data each of the source string builders interpolates:
`_generate_plan_summary` (no-conflict path), `_generate_coordination_reasoning`
(conflict path), and the two failure envelopes. -/
inductive CoordReasoning where
  | plan_summary (unified : UnifiedMap) (daily_budget workout_minutes : ℚ)
  | no_conflicts_text
  | coordination (resolved_count : ℕ) (score : ℚ) (top_trade_offs : List String)
      (recovery_framing budget_framing : Bool)
  | invalid_proposals_text (invalid_names : List String)
  | error_text (message : String)
  deriving DecidableEq, Repr

/-- The JSON-shaped coordination result.  The successful paths never carry the
`recovery_prioritization` block: constructing it calls
`energy_balance.to_dict()`, and the `EnergyBalance` dataclass defines no
`to_dict`, so that statement always raises `AttributeError` (see
`runCoordination` below). -/
structure CoordinationResult where
  unified_plan : UnifiedMap
  confidence : ℚ
  conflicts_detected : List String
  conflicts_resolved : List ResolutionDict
  trade_offs_made : List String
  agent_contributions : Contributions
  constraint_satisfaction_score : ℚ
  optimization_metrics : OptimizationMetrics
  reasoning : CoordReasoning
  error : Option String := none
  validation_results : Option ValidationResults := none
  deriving DecidableEq, Repr

/-- Sum of present proposals' `confidence` values (`.get('confidence', 0.5)`). -/
def Proposals.confSum (props : Proposals) : ℚ :=
  (match props.fitness with | some p => p.confidence.getD 0.5 | none => 0) +
  (match props.nutrition with | some p => p.confidence.getD 0.5 | none => 0) +
  (match props.sleep with | some p => p.confidence.getD 0.5 | none => 0) +
  (match props.mental with | some p => p.confidence.getD 0.5 | none => 0)

/-- `total_confidence / len(agent_proposals) if agent_proposals else 0.0`. -/
def Proposals.meanConfidence (props : Proposals) : ℚ :=
  if props.size = 0 then 0 else Proposals.confSum props / props.size

/-- The per-present-agent projection into the `unified_plan` slots
(`fitness ← workout_plan`, `nutrition ← meal_plan`, `sleep ←
sleep_recommendations`, `mental_wellness ← wellness_recommendations`,
each defaulting to the empty dict). -/
def projectUnified (props : Proposals) : UnifiedMap :=
  { fitness := props.fitness.map (fun p => p.workout_plan.getD {})
    nutrition := props.nutrition.map (fun p => p.meal_plan.getD {})
    sleep := props.sleep.map (fun p => p.sleep_recommendations.getD {})
    mental_wellness := props.mental.map (fun p => p.wellness_recommendations.getD {}) }

/-- `_create_unified_plan_no_conflicts`. -/
def create_unified_plan_no_conflicts (props : Proposals) (cons : Constraints) :
    CoordinationResult :=
  let unified := projectUnified props
  let contribution := fun (c : ℚ) =>
    { confidence := c, contribution_type := "full_proposal",
      modifications := ([] : List String) : AgentContribution }
  { unified_plan := unified
    confidence := Proposals.meanConfidence props
    conflicts_detected := []
    conflicts_resolved := []
    trade_offs_made := []
    agent_contributions :=
      { fitness := props.fitness.map (fun p => contribution (p.confidence.getD 0.5))
        nutrition := props.nutrition.map (fun p => contribution (p.confidence.getD 0.5))
        sleep := props.sleep.map (fun p => contribution (p.confidence.getD 0.5))
        mental := props.mental.map (fun p => contribution (p.confidence.getD 0.5)) }
    constraint_satisfaction_score := 1.0
    optimization_metrics :=
      { total_agents := props.size, conflicts_count := 0, optimization_time_ms := 0 }
    reasoning := .plan_summary unified (cons.daily_budget.getD 0) (cons.workout_minutes.getD 0) }

/-- `_calculate_constraint_satisfaction_score`: `1.0` minus `0.1` per resolved
Recovery/Energy conflict and `0.05` per other resolved conflict, clamped. -/
def calculate_constraint_satisfaction_score (resolved : List ConflictResolution) : ℚ :=
  clamp01 (resolved.foldl (fun s c =>
    if c.conflict_type = .recovery_conflict ∨ c.conflict_type = .energy_conflict
    then s - 0.1 else s - 0.05) 1)

/-- `_generate_coordination_reasoning`. -/
def generate_coordination_reasoning (resolved : List ConflictResolution)
    (trade_offs : List String) (score : ℚ) : CoordReasoning :=
  if resolved = [] then .no_conflicts_text
  else
    let types := resolved.map (fun c => c.conflict_type.value)
    .coordination resolved.length score (trade_offs.take 3)
      ("recovery_conflict" ∈ types) ("budget_conflict" ∈ types)

/-- Per-agent `modifications` list of `_generate_unified_plan`
(`'conflict_resolution_applied' in proposal` is a key-presence test). -/
def modificationsOf (applied : Option Bool) (reason : Option String) : List String :=
  if applied.isSome then [reason.getD "Conflict resolution applied"] else []

/-- `_generate_unified_plan`.  `optimization_time_ms` is a placeholder `0`
here; `coordinate_agent_proposals` substitutes the measured wall-clock
duration. -/
def generate_unified_plan (props : Proposals) (resolved : List ConflictResolution)
    : CoordinationResult :=
  let unified := projectUnified props
  let contribution := fun (c : ℚ) (mods : List String) =>
    ({ confidence := c
       contribution_type := if mods ≠ [] then "modified_proposal" else "full_proposal"
       modifications := mods } : AgentContribution)
  let all_trade_offs := resolved.foldl (fun acc c => acc ++ c.trade_offs_made) []
  let score := calculate_constraint_satisfaction_score resolved
  { unified_plan := unified
    confidence := Proposals.meanConfidence props
    conflicts_detected := resolved.map (fun c => c.conflict_type.value)
    conflicts_resolved := resolved.map ConflictResolution.to_dict
    trade_offs_made := all_trade_offs
    agent_contributions :=
      { fitness := props.fitness.map (fun p =>
          contribution (p.confidence.getD 0.5)
            (modificationsOf p.conflict_resolution_applied p.modification_reason))
        nutrition := props.nutrition.map (fun p =>
          contribution (p.confidence.getD 0.5)
            (modificationsOf p.conflict_resolution_applied p.modification_reason))
        sleep := props.sleep.map (fun p =>
          contribution (p.confidence.getD 0.5)
            (modificationsOf p.conflict_resolution_applied p.modification_reason))
        mental := props.mental.map (fun p =>
          contribution (p.confidence.getD 0.5)
            (modificationsOf p.conflict_resolution_applied p.modification_reason)) }
    constraint_satisfaction_score := score
    optimization_metrics :=
      { total_agents := props.size
        conflicts_count := resolved.length
        optimization_time_ms := 0 }
    reasoning := generate_coordination_reasoning resolved all_trade_offs score }

/-- `_handle_invalid_proposals`. -/
def handle_invalid_proposals (vr : ValidationResults) : CoordinationResult :=
  { unified_plan := {}
    confidence := 0.0
    conflicts_detected := []
    conflicts_resolved := []
    trade_offs_made := []
    agent_contributions := {}
    constraint_satisfaction_score := 0.0
    optimization_metrics :=
      { total_agents := 0, conflicts_count := 0, optimization_time_ms := 0 }
    reasoning := .invalid_proposals_text vr.invalid_proposals
    error := some "Invalid agent proposals detected"
    validation_results := some vr }

/-- `_create_error_coordination_result`. -/
def create_error_coordination_result (msg : String) (props : Proposals) :
    CoordinationResult :=
  { unified_plan := {}
    confidence := 0.0
    conflicts_detected := []
    conflicts_resolved := []
    trade_offs_made := []
    agent_contributions := {}
    constraint_satisfaction_score := 0.0
    optimization_metrics :=
      { total_agents := props.size, conflicts_count := 0, optimization_time_ms := 0 }
    reasoning := .error_text msg
    error := some msg }

/-- The `AttributeError` message raised by `energy_balance.to_dict()`
(Python renders it with quotes around the class and attribute names; quote
characters are elided here). -/
def attributeErrorMsg : String :=
  "EnergyBalance object has no attribute to_dict"

/-- `shared_state.get('user_profile', {}) if shared_state else {}`. -/
def userDataOf (ss : Option SharedState) : UserData :=
  match ss with
  | none => {}
  | some s => s.user_profile.getD {}

/-! ### The coordination entry point -/

/-- Intermediate values of one `coordinate_agent_proposals` call, exposed so
that theorems can speak about individual stages.  `timed` records whether the
returned `optimization_time_ms` is the measured wall-clock resolution time
(conflict-resolution path) rather than the constant `0`. -/
structure CoordTrace where
  validation : ValidationResults
  validatedProps : Proposals
  energy_balance : Option EnergyBalance
  energy_conflicts : List EnergyConflictType
  recovery_priority : Option RecoveryPriority
  propsAfterRecovery : Proposals
  detectedConflicts : List ConflictResolution
  resolvedConflicts : List ConflictResolution
  finalProps : Proposals
  timed : Bool
  result : CoordinationResult
  deriving DecidableEq, Repr

/-- The body of `coordinate_agent_proposals`, minus the wall-clock reading.

External side effects that cannot influence the returned value
(`_store_coordination_session`, which writes to agent memory) are assumed to
succeed and are not modelled.  Both statements that attach the
`recovery_prioritization` block call `energy_balance.to_dict()`; the
`EnergyBalance` dataclass defines no such method, so whenever
`energy_conflicts` is non-empty the call raises `AttributeError`, the `except`
clause at the top of `coordinate_agent_proposals` catches it, and
`_create_error_coordination_result` is returned instead (with the proposal
dicts left in their already-mutated state). -/
def runCoordination (props : Proposals) (cons : Constraints)
    (ss : Option SharedState) : CoordTrace :=
  let vprops := (validate_all_proposals props).1
  let vr := (validate_all_proposals props).2
  if ¬ vr.all_valid then
    { validation := vr, validatedProps := vprops, energy_balance := none
      energy_conflicts := [], recovery_priority := none, propsAfterRecovery := vprops
      detectedConflicts := [], resolvedConflicts := [], finalProps := vprops
      timed := false, result := handle_invalid_proposals vr }
  else
    let u := userDataOf ss
    let bal := assess_energy_balance vprops u
    let ecs := detect_energy_conflicts bal vprops u
    let rp := if ecs = [] then none else some (prioritize_recovery ecs bal vprops)
    let rprops := match rp with
      | some r => apply_recovery_prioritization vprops r
      | none => vprops
    let conflicts := Coordinator.detect_conflicts rprops cons
    if conflicts = [] then
      match rp with
      | none =>
        -- no recovery block to attach: the no-conflict plan is returned as is
        { validation := vr, validatedProps := vprops, energy_balance := some bal
          energy_conflicts := ecs, recovery_priority := none
          propsAfterRecovery := rprops, detectedConflicts := []
          resolvedConflicts := [], finalProps := rprops, timed := false
          result := create_unified_plan_no_conflicts rprops cons }
      | some r =>
        -- `unified_plan['recovery_prioritization'] = {...}` raises AttributeError
        { validation := vr, validatedProps := vprops, energy_balance := some bal
          energy_conflicts := ecs, recovery_priority := some r
          propsAfterRecovery := rprops, detectedConflicts := []
          resolvedConflicts := [], finalProps := rprops, timed := false
          result := create_error_coordination_result attributeErrorMsg rprops }
    else
      let resolved := (resolve_conflicts_with_optimization rprops conflicts).1
      let fprops := (resolve_conflicts_with_optimization rprops conflicts).2
      match rp with
      | none =>
        { validation := vr, validatedProps := vprops, energy_balance := some bal
          energy_conflicts := ecs, recovery_priority := none
          propsAfterRecovery := rprops, detectedConflicts := conflicts
          resolvedConflicts := resolved, finalProps := fprops, timed := true
          result := generate_unified_plan fprops resolved }
      | some r =>
        -- the unified plan is built, then attaching the recovery block raises
        { validation := vr, validatedProps := vprops, energy_balance := some bal
          energy_conflicts := ecs, recovery_priority := some r
          propsAfterRecovery := rprops, detectedConflicts := conflicts
          resolvedConflicts := resolved, finalProps := fprops, timed := false
          result := create_error_coordination_result attributeErrorMsg fprops }

/-- `coordinate_agent_proposals`.  `elapsed_ms` models the value of
`(datetime.now() - resolution_start_time).total_seconds() * 1000` measured in
`_resolve_conflicts_with_optimization`; it reaches the output only as
`optimization_metrics.optimization_time_ms` of the conflict-resolution path.
Returns the result together with the final state of the caller's (in-place
mutated) proposal dicts. -/
def coordinate_agent_proposals (elapsed_ms : ℚ) (props : Proposals)
    (cons : Constraints) (ss : Option SharedState) :
    CoordinationResult × Proposals :=
  let t := runCoordination props cons ss
  ({ t.result with optimization_metrics :=
      { t.result.optimization_metrics with optimization_time_ms :=
          if t.timed then elapsed_ms else t.result.optimization_metrics.optimization_time_ms } },
   t.finalProps)

end Coordinator

open Coordinator

set_option maxRecDepth 20000
set_option maxHeartbeats 1000000

/-! ## Inputs and predicates used by the claim statements -/

/-- A coordination result with `optimization_metrics.optimization_time_ms`
zeroed out, used to compare two results on every other field at once. -/
def eraseTime (r : CoordinationResult) : CoordinationResult :=
  { r with optimization_metrics :=
      { r.optimization_metrics with optimization_time_ms := 0 } }

/-- Scenario input: Sleep `recovery_status='poor'`, Fitness
`energy_demand='high'`, every other field left to validation defaults. -/
def scenarioPoorHigh : Proposals :=
  { fitness := some { confidence := some 0.8, energy_demand := some "high" }
    nutrition := some {}
    sleep := some { confidence := some 0.8, recovery_status := some "poor" }
    mental := some {} }

/-- Same scenario with `training_load_score = 0`, which keeps the energy
demand score at 70 so the energy-conflict stage stays silent and conflict
detection actually runs on the unmodified proposals. -/
def scenarioPoorHighTL0 : Proposals :=
  { fitness := some { confidence := some 0.8, energy_demand := some "high", training_load_score := some 0 }
    nutrition := some {}
    sleep := some { confidence := some 0.8, recovery_status := some "poor" }
    mental := some {} }

/-- Scenario input: Nutrition `budget_utilization = 0.95` with an explicitly
empty `meal_plan` dict. -/
def scenarioBudgetEmptyMeal : Proposals :=
  { fitness := some {}
    nutrition := some { budget_utilization := some 0.95, meal_plan := some {} }
    sleep := some {}
    mental := some {} }

/-- Scenario input: Nutrition `budget_utilization = 0.95`, `meal_plan` absent
(so validation injects the non-empty default). -/
def scenarioBudget : Proposals :=
  { fitness := some {}
    nutrition := some { budget_utilization := some 0.95 }
    sleep := some {}
    mental := some {} }

/-- Scenario input: the `SleepAgent` proposal is missing entirely. -/
def scenarioMissingSleep : Proposals :=
  { fitness := some {}
    nutrition := some { budget_utilization := some 0.95 }
    sleep := none
    mental := some {} }

/-- Scenario input: all four proposals present and empty (default-only). -/
def scenarioDefaults : Proposals :=
  { fitness := some {}, nutrition := some {}, sleep := some {}, mental := some {} }

/-- A concrete medium-priority recovery decision. -/
def rpMedium : RecoveryPriority :=
  { priority_level := "medium", affected_domains := ["sleep"]
    interventions := [], trade_offs := [], timeline := "medium_term"
    confidence := 0.6 }

/-- Proposals and user signals on which `detect_energy_conflicts` yields
`[sleep_debt_accumulation, stress_overload, multiple_stressors]` — two base
conflicts, neither of them `high_demand_low_recovery`. -/
def stressorProps : Proposals :=
  { fitness := some { energy_demand := some "low", training_load_score := some 50 }
    nutrition := some { nutritional_adequacy := some "high" }
    sleep := some { recovery_status := some "good" }
    mental := some { motivation_level := some "low" } }

/-- User signals for `stressorProps`: 2.5 hours of sleep debt and maximal work
stress. -/
def stressorUser : UserData := { daily_hours := [5.5], work_stress_level := 10 }

/-- The energy balance assessed for `stressorProps` and `stressorUser`. -/
def stressorBalance : EnergyBalance := assess_energy_balance stressorProps stressorUser

/-- The energy conflicts detected for `stressorProps` and `stressorUser`. -/
def stressorConflicts : List EnergyConflictType :=
  detect_energy_conflicts stressorBalance stressorProps stressorUser

/-- An optional confidence value read as Python does
(`proposal.get('confidence', 0.5)`) lies in `[0, 1]`. -/
def confInUnit (c : Option ℚ) : Prop := 0 ≤ c.getD 0.5 ∧ c.getD 0.5 ≤ 1

/-- Every present proposal in the map carries a confidence in `[0, 1]`. -/
def propsConfInUnit (props : Proposals) : Prop :=
  (∀ p, props.fitness = some p → confInUnit p.confidence) ∧
  (∀ p, props.nutrition = some p → confInUnit p.confidence) ∧
  (∀ p, props.sleep = some p → confInUnit p.confidence) ∧
  (∀ p, props.mental = some p → confInUnit p.confidence)

/-- Every present entry of `agent_contributions` carries a confidence in
`[0, 1]`. -/
def contribsInUnit (cs : Contributions) : Prop :=
  (∀ a, cs.fitness = some a → 0 ≤ a.confidence ∧ a.confidence ≤ 1) ∧
  (∀ a, cs.nutrition = some a → 0 ≤ a.confidence ∧ a.confidence ≤ 1) ∧
  (∀ a, cs.sleep = some a → 0 ≤ a.confidence ∧ a.confidence ≤ 1) ∧
  (∀ a, cs.mental = some a → 0 ≤ a.confidence ∧ a.confidence ≤ 1)

/-- The (budget_utilization, meal-plan-truthiness) view of the Nutrition
proposal, the data the Budget rule and resolver read and write. -/
def NutriView (ps : Proposals) : Option (Option ℚ × Bool) :=
  ps.nutrition.map (fun p =>
    (p.budget_utilization, match p.meal_plan with | some m => m.truthy | none => false))

/-- The Nutrition proposal is present, over budget (`> 0.9`), and carries a
truthy `meal_plan` dict — the state in which the Budget rule fires and the
resolver clamp executes. -/
def BudgetReady (ps : Proposals) : Prop :=
  ∃ b, NutriView ps = some (some b, true) ∧ 0.9 < b

/-- The Nutrition proposal is present with `budget_utilization ≤ 0.85`. -/
def BudgetClamped (ps : Proposals) : Prop :=
  ∃ b t, NutriView ps = some (some b, t) ∧ b ≤ 0.85

/-! ## Claim theorems -/

/-- C5: the confidence computed for a `RecoveryPriority` decision equals
`clamp(0.8 − 0.1·min(3, conflict_count) − (0.1 if deficit else 0) +
0.02·min(10, intervention_count), 0.3, 1.0)`, for every energy balance,
conflict count, and intervention list. -/
theorem C5_recovery_confidence_formula (bal : EnergyBalance) (n : ℕ)
    (iv : List String) :
    calculate_recovery_confidence bal n iv =
      max 0.3 (min 1 (0.8 - 0.1 * min 3 (n : ℚ)
        - (if bal.balance_status = "deficit" then 0.1 else 0)
        + 0.02 * min 10 (iv.length : ℚ))) := by
  have h1 : min (0.3 : ℚ) ((n : ℚ) * 0.1) = 0.1 * min 3 (n : ℚ) := by
    rcases le_total ((n : ℚ)) 3 with h | h
    · rw [min_eq_right (by nlinarith : (n : ℚ) * 0.1 ≤ 0.3), min_eq_right h]; ring
    · rw [min_eq_left (by nlinarith : (0.3 : ℚ) ≤ (n : ℚ) * 0.1), min_eq_left h]
      norm_num
  have h2 : min (0.2 : ℚ) ((iv.length : ℚ) * 0.02) = 0.02 * min 10 (iv.length : ℚ) := by
    rcases le_total ((iv.length : ℚ)) 10 with h | h
    · rw [min_eq_right (by nlinarith : (iv.length : ℚ) * 0.02 ≤ 0.2), min_eq_right h]
      ring
    · rw [min_eq_left (by nlinarith : (0.2 : ℚ) ≤ (iv.length : ℚ) * 0.02), min_eq_left h]
      norm_num
  simp only [calculate_recovery_confidence]
  rw [h1, h2]

/-- C9: `_prioritize_conflicts` orders every conflict list by the fixed
priority table Recovery > Energy > Time > Budget > Nutritional > Motivation —
no lower-priority conflict precedes a higher-priority one in the resolution
order — and keeps exactly the detected conflicts (it is a permutation). -/
theorem C9_resolution_priority_order (conflicts : List ConflictResolution) :
    (prioritize_conflicts conflicts).Pairwise
      (fun a b => a.conflict_type.priority ≤ b.conflict_type.priority) ∧
    (prioritize_conflicts conflicts).Perm conflicts := by
  haveI : IsTotal ConflictResolution
      (fun a b => a.conflict_type.priority ≤ b.conflict_type.priority) :=
    ⟨fun a b => Nat.le_total _ _⟩
  haveI : IsTrans ConflictResolution
      (fun a b => a.conflict_type.priority ≤ b.conflict_type.priority) :=
    ⟨fun _ _ _ hab hbc => le_trans hab hbc⟩
  exact ⟨List.sorted_insertionSort _ conflicts, List.perm_insertionSort _ conflicts⟩

/-- C10: when the recovery priority level is `medium` or `low`,
`_apply_recovery_prioritization` leaves every proposal unchanged; proposals
are only mutated for `critical` or `high`. -/
theorem C10_medium_low_priority_no_mutation (props : Proposals)
    (rp : RecoveryPriority)
    (h : rp.priority_level = "medium" ∨ rp.priority_level = "low") :
    apply_recovery_prioritization props rp = props := by
  unfold apply_recovery_prioritization
  rcases h with h | h <;> rw [h] <;> simp

/-- Witness for C10 at a concrete medium-priority decision. -/
theorem C10_medium_low_priority_no_mutation_witness :
    (rpMedium.priority_level = "medium" ∨ rpMedium.priority_level = "low") ∧
    apply_recovery_prioritization scenarioDefaults rpMedium = scenarioDefaults :=
  ⟨Or.inl rfl,
   C10_medium_low_priority_no_mutation scenarioDefaults rpMedium (Or.inl rfl)⟩

/-- C3 counterexample: on a reachable conflict list
(`[sleep_debt_accumulation, stress_overload, multiple_stressors]`, produced by
`detect_energy_conflicts` from concrete inputs) with `recovery_capacity = 30`
and `sustainability_score = 50.5`, the priority level is `critical`, yet no
Energy/Recovery (`high_demand_low_recovery`) conflict is present and neither
threshold rule fires — refuting the claimed exact characterisation. -/
theorem C3_critical_without_energy_recovery_conflict :
    detect_energy_conflicts stressorBalance stressorProps stressorUser =
      [EnergyConflictType.sleep_debt_accumulation,
       EnergyConflictType.stress_overload,
       EnergyConflictType.multiple_stressors] ∧
    determine_priority_level stressorConflicts stressorBalance = "critical" ∧
    ¬ ((2 ≤ stressorConflicts.length ∧
        EnergyConflictType.high_demand_low_recovery ∈ stressorConflicts) ∨
       stressorBalance.recovery_capacity < 25 ∨
       stressorBalance.sustainability_score < 30) := by
  with_unfolding_all decide

/-- C3 (amended): the priority level is `critical` exactly when
`multiple_stressors` is among the detected conflicts (which
`detect_energy_conflicts` emits precisely when at least two base conflicts
fire), or `recovery_capacity < 25` (strict), or `sustainability_score < 30`
(strict) — no Energy/Recovery conjunct. -/
theorem C3_critical_iff_multiple_stressors_or_thresholds
    (cs : List EnergyConflictType) (bal : EnergyBalance) :
    determine_priority_level cs bal = "critical" ↔
      (EnergyConflictType.multiple_stressors ∈ cs ∨
       bal.recovery_capacity < 25 ∨ bal.sustainability_score < 30) := by
  unfold determine_priority_level
  split_ifs with h1 h2 h3 <;> simp [h1]

/-- C1 counterexample: two calls on identical (deep-copied) inputs but at
different wall-clock durations return different results — the measured
resolution time `datetime.now() − resolution_start_time` is written into
`optimization_metrics.optimization_time_ms`, so the engine does contain a
hidden timestamp. -/
theorem C1_timing_breaks_determinism :
    (coordinate_agent_proposals 0 scenarioBudget {} none).1 ≠
      (coordinate_agent_proposals 1 scenarioBudget {} none).1 := by
  with_unfolding_all decide

/-- C1 (amended): for identical inputs, two calls agree on every field of the
result — and leave the caller's proposal dicts in identical states — except
`optimization_metrics.optimization_time_ms`, which carries the measured
wall-clock resolution time on the conflict-resolution path. -/
theorem C1_deterministic_modulo_timing (e1 e2 : ℚ) (props : Proposals)
    (cons : Constraints) (ss : Option SharedState) :
    eraseTime (coordinate_agent_proposals e1 props cons ss).1 =
      eraseTime (coordinate_agent_proposals e2 props cons ss).1 ∧
    (coordinate_agent_proposals e1 props cons ss).2 =
      (coordinate_agent_proposals e2 props cons ss).2 :=
  ⟨rfl, rfl⟩

/-- C2 counterexample: with `SleepAgent` missing, the call does return the
error envelope, but the proposals of the present domains are **not** left
unmutated — validation has already injected defaults into them in place
before the abort. -/
theorem C2_validation_mutates_before_abort :
    (coordinate_agent_proposals 0 scenarioMissingSleep {} none).1.error.isSome = true ∧
    (coordinate_agent_proposals 0 scenarioMissingSleep {} none).2 ≠ scenarioMissingSleep := by
  with_unfolding_all decide

/-- C2 (amended): if any expected domain is absent, the result is the
invalid-proposals envelope (`unified_plan == {}`, `confidence == 0.0`,
`error` present) — but the present proposals are first mutated in place by
validation (default injection and confidence normalisation), so the final
proposal state is the validated map, not the input. -/
theorem C2_missing_agent_error_envelope (e : ℚ) (props : Proposals)
    (cons : Constraints) (ss : Option SharedState)
    (h : props.fitness = none ∨ props.nutrition = none ∨
         props.sleep = none ∨ props.mental = none) :
    (coordinate_agent_proposals e props cons ss).1.unified_plan = {} ∧
    (coordinate_agent_proposals e props cons ss).1.confidence = 0 ∧
    (coordinate_agent_proposals e props cons ss).1.error =
      some "Invalid agent proposals detected" ∧
    (coordinate_agent_proposals e props cons ss).2 =
      (validate_all_proposals props).1 := by
  have hv : (validate_all_proposals props).2.all_valid = false := by
    rcases h with h | h | h | h <;>
      simp [validate_all_proposals, h, List.append_eq_nil]
  refine ⟨?_, ?_, ?_, ?_⟩ <;>
    simp [coordinate_agent_proposals, runCoordination, hv, handle_invalid_proposals] <;>
    norm_num

/-- Witness for C2 (amended) at a concrete input with `SleepAgent` missing. -/
theorem C2_missing_agent_error_envelope_witness :
    (scenarioMissingSleep.fitness = none ∨ scenarioMissingSleep.nutrition = none ∨
     scenarioMissingSleep.sleep = none ∨ scenarioMissingSleep.mental = none) ∧
    ((coordinate_agent_proposals 0 scenarioMissingSleep {} none).1.unified_plan = {} ∧
     (coordinate_agent_proposals 0 scenarioMissingSleep {} none).1.confidence = 0 ∧
     (coordinate_agent_proposals 0 scenarioMissingSleep {} none).1.error =
       some "Invalid agent proposals detected" ∧
     (coordinate_agent_proposals 0 scenarioMissingSleep {} none).2 =
       (validate_all_proposals scenarioMissingSleep).1) :=
  ⟨Or.inr (Or.inr (Or.inl rfl)),
   C2_missing_agent_error_envelope 0 scenarioMissingSleep {} none
     (Or.inr (Or.inr (Or.inl rfl)))⟩

/-- C4 counterexample: on the scenario input (Sleep poor, Fitness high,
defaults elsewhere) the full coordination pass detects **no** Recovery
conflict — the detector runs after recovery prioritization has already
stepped the fitness demand down — and the returned result reports no
conflicts and carries an error. -/
theorem C4_no_recovery_conflict_detected :
    (runCoordination scenarioPoorHigh {} none).detectedConflicts = [] ∧
    (coordinate_agent_proposals 0 scenarioPoorHigh {} none).1.conflicts_detected = [] ∧
    (coordinate_agent_proposals 0 scenarioPoorHigh {} none).1.error.isSome = true := by
  with_unfolding_all decide

/-- C4 (amended): on the scenario input the conflict is pre-empted — the
energy stage flags `high_demand_low_recovery`, recovery prioritization (level
`high`) sets Fitness `energy_demand` to `medium` and reduces the Fitness
confidence by exactly `0.1` (from `0.8` to `0.7`, floor `0.3` not hit)
**before** conflict detection, which then finds no Recovery conflict. -/
theorem C4_recovery_preempted_scenario :
    (runCoordination scenarioPoorHigh {} none).energy_conflicts =
      [EnergyConflictType.high_demand_low_recovery] ∧
    ((runCoordination scenarioPoorHigh {} none).recovery_priority.map
      (fun r => r.priority_level)) = some "high" ∧
    ((runCoordination scenarioPoorHigh {} none).propsAfterRecovery.fitness.bind
      (fun p => p.energy_demand)) = some "medium" ∧
    ((runCoordination scenarioPoorHigh {} none).propsAfterRecovery.fitness.bind
      (fun p => p.confidence)) = some 0.7 ∧
    (runCoordination scenarioPoorHigh {} none).detectedConflicts = [] := by
  with_unfolding_all decide

/-- C6: evaluation at the failing input.  Conflict detection returns the
empty list, yet the returned result is not the passthrough plan with score
`1.0`: attaching the recovery block raised `AttributeError` (`EnergyBalance`
defines no `to_dict`), so the error envelope comes back with an empty
`unified_plan` and `constraint_satisfaction_score == 0.0`. -/
theorem C6_no_conflict_crash_eval :
    (runCoordination scenarioPoorHigh {} none).detectedConflicts = [] ∧
    (coordinate_agent_proposals 0 scenarioPoorHigh {} none).1.unified_plan = {} ∧
    (coordinate_agent_proposals 0 scenarioPoorHigh {} none).1.constraint_satisfaction_score
      = 0 ∧
    (coordinate_agent_proposals 0 scenarioPoorHigh {} none).1.error =
      some attributeErrorMsg := by
  with_unfolding_all decide

/-- C7 counterexample: with `budget_utilization = 0.95` and an explicitly
empty `meal_plan` dict, the Budget conflict is detected, but the resolver's
clamp is inside `if meal_plan:` and is skipped — after the full pass the
budget utilization is still `0.95 > 0.85`. -/
theorem C7_empty_meal_plan_skips_clamp :
    ((runCoordination scenarioBudgetEmptyMeal {} none).detectedConflicts.map
      (fun c => c.conflict_type)) = [ConflictType.budget_conflict] ∧
    ((coordinate_agent_proposals 0 scenarioBudgetEmptyMeal {} none).2.nutrition.bind
      (fun p => p.budget_utilization)) = some 0.95 ∧
    ¬ ((0.95 : ℚ) ≤ 0.85) := by
  with_unfolding_all decide

/-! ### Lemmas for C7: the budget clamp through the pipeline -/

/-- `_apply_conflict_resolution` only rewrites `confidence`; the Nutrition
budget/meal-plan view is untouched. -/
theorem apply_conflict_resolution_nutriview (ps : Proposals) (c : ConflictResolution) :
    NutriView (apply_conflict_resolution ps c) = NutriView ps := by
  unfold apply_conflict_resolution
  generalize c.affected_agents = l
  induction l generalizing ps with
  | nil => rfl
  | cons a t ih =>
    rw [List.foldl_cons, ih]
    split_ifs <;> rcases ps with ⟨f, n, s, m⟩ <;> rcases n <;> simp [NutriView]

/-- The recovery-conflict resolver never touches the Nutrition proposal. -/
theorem resolve_recovery_nutriview (c : ConflictResolution) (ps : Proposals) :
    NutriView (resolve_recovery_conflict c ps).2 = NutriView ps := by
  unfold resolve_recovery_conflict
  by_cases h : (ps.fitness.bind fun x => x.energy_demand) = some "high" <;>
    simp [h, NutriView]

/-- The energy-conflict resolver only writes `priority_adjustment` and the
fitness demand; the budget/meal-plan view is untouched. -/
theorem resolve_energy_nutriview (c : ConflictResolution) (ps : Proposals) :
    NutriView (resolve_energy_conflict c ps).2 = NutriView ps := by
  unfold resolve_energy_conflict
  by_cases hna : (ps.nutrition.bind fun x => x.nutritional_adequacy) = some "low" <;>
    by_cases hed : (ps.fitness.bind fun x => x.energy_demand) = some "high" <;>
    rcases ps with ⟨f, n, s, m⟩ <;> rcases n with _ | n <;>
    simp_all [NutriView]

/-- The time-conflict resolver adds `prep_optimization` to an already-truthy
meal plan; the view is unchanged (a truthy dict stays truthy). -/
theorem resolve_time_nutriview (c : ConflictResolution) (ps : Proposals) :
    NutriView (resolve_time_conflict c ps).2 = NutriView ps := by
  unfold resolve_time_conflict
  rcases ps with ⟨f, n, s, m⟩
  rcases n with _ | n
  · by_cases hw : (match f.bind fun x => x.workout_plan with
        | some w => w.truthy | none => false) = true <;> simp [hw, NutriView]
  · rcases hm : n.meal_plan with _ | mp
    · by_cases hw : (match f.bind fun x => x.workout_plan with
        | some w => w.truthy | none => false) = true <;> simp_all [NutriView]
    · by_cases hw : (match f.bind fun x => x.workout_plan with
        | some w => w.truthy | none => false) = true <;>
      by_cases ht : mp.truthy = true <;>
      simp_all [NutriView, MealPlan.truthy]

/-- The nutritional-conflict resolver only writes `adequacy_priority` and the
fitness demand; the view is untouched. -/
theorem resolve_nutritional_nutriview (c : ConflictResolution) (ps : Proposals) :
    NutriView (resolve_nutritional_conflict c ps).2 = NutriView ps := by
  unfold resolve_nutritional_conflict
  by_cases hna : (ps.nutrition.bind fun x => x.nutritional_adequacy) = some "low" <;>
    by_cases hed : (ps.fitness.bind fun x => x.energy_demand) = some "high" <;>
    rcases ps with ⟨f, n, s, m⟩ <;> rcases n with _ | n <;>
    simp_all [NutriView]

/-- One motivation-resolution step adds `complexity_reduction` to an
already-truthy meal plan; the view is unchanged. -/
theorem motivationStep_nutriview (acc : Proposals × List String) (a : String) :
    NutriView (motivationStep acc a).1 = NutriView acc.1 := by
  rcases acc with ⟨ps, tr⟩
  unfold motivationStep
  rcases ps with ⟨f, n, s, m⟩
  rcases n with _ | n
  · by_cases h1 : a = "FitnessAgent" <;> by_cases h2 : a = "NutritionAgent" <;>
      simp_all [NutriView] <;>
      by_cases hw : (match f.bind fun x => x.workout_plan with
        | some w => w.truthy | none => false) = true <;> simp [hw]
  · rcases hm : n.meal_plan with _ | mp
    · by_cases h1 : a = "FitnessAgent" <;> by_cases h2 : a = "NutritionAgent" <;>
      by_cases hw : (match f.bind fun x => x.workout_plan with
        | some w => w.truthy | none => false) = true <;>
      simp_all [NutriView]
    · by_cases h1 : a = "FitnessAgent" <;> by_cases h2 : a = "NutritionAgent" <;>
      by_cases hw : (match f.bind fun x => x.workout_plan with
        | some w => w.truthy | none => false) = true <;>
      by_cases ht : mp.truthy = true <;>
      simp_all [NutriView, MealPlan.truthy]

/-- The motivation-conflict resolver preserves the view. -/
theorem resolve_motivation_nutriview (c : ConflictResolution) (ps : Proposals) :
    NutriView (resolve_motivation_conflict c ps).2 = NutriView ps := by
  unfold resolve_motivation_conflict
  generalize c.affected_agents = l
  suffices h : ∀ (acc : Proposals × List String),
      NutriView (l.foldl motivationStep acc).1 = NutriView acc.1 by
    simpa using h (ps, [])
  induction l with
  | nil => intro acc; rfl
  | cons a t ih =>
    intro acc
    rw [List.foldl_cons, ih, motivationStep_nutriview]

/-- The budget resolver clamps the budget utilization to at most `0.85`
whenever the meal plan is truthy. -/
theorem resolve_budget_clamps (c : ConflictResolution) (ps : Proposals)
    (h : BudgetReady ps) : BudgetClamped (resolve_budget_conflict c ps).2 := by
  obtain ⟨b, hv, hb⟩ := h
  rcases ps with ⟨f, n, s, m⟩
  rcases n with _ | n
  · simp [NutriView] at hv
  · rcases hm : n.meal_plan with _ | mp
    · simp [NutriView, hm] at hv
    · simp [NutriView, hm] at hv
      obtain ⟨hbu, ht⟩ := hv
      unfold resolve_budget_conflict
      simp only [Option.some_bind, hm]
      split_ifs with hc
      · exact ⟨min b 0.85, true,
          by simp [NutriView, hbu, hm, MealPlan.truthy], min_le_right _ _⟩
      · exact absurd ht hc

/-- The budget resolver keeps an already-clamped budget clamped. -/
theorem resolve_budget_keeps_clamped (c : ConflictResolution) (ps : Proposals)
    (h : BudgetClamped ps) : BudgetClamped (resolve_budget_conflict c ps).2 := by
  obtain ⟨b, t, hv, hb⟩ := h
  rcases ps with ⟨f, n, s, m⟩
  rcases n with _ | n
  · simp [NutriView] at hv
  · rcases hm : n.meal_plan with _ | mp
    · simp [NutriView, hm] at hv
      obtain ⟨hbu, ht⟩ := hv
      subst ht
      unfold resolve_budget_conflict
      exact ⟨b, false, by simp [NutriView, hbu, hm], hb⟩
    · simp [NutriView, hm] at hv
      obtain ⟨hbu, ht⟩ := hv
      unfold resolve_budget_conflict
      simp only [Option.some_bind, hm]
      split_ifs with hc
      · exact ⟨min b 0.85, true,
          by simp [NutriView, hbu, hm, MealPlan.truthy], min_le_right _ _⟩
      · exact ⟨b, t, by simp [NutriView, hbu, hm, ht], hb⟩

/-- One iteration of the resolution loop (resolve, then apply the confidence
adjustment) preserves the over-budget view for non-Budget conflicts. -/
theorem resolve_step_preserves_ready (c : ConflictResolution) (ps : Proposals)
    (hc : c.conflict_type ≠ ConflictType.budget_conflict) (h : BudgetReady ps) :
    BudgetReady (apply_conflict_resolution (resolve_single_conflict c ps).2
      (resolve_single_conflict c ps).1) := by
  obtain ⟨b, hv, hb⟩ := h
  refine ⟨b, ?_, hb⟩
  rw [apply_conflict_resolution_nutriview]
  cases hct : c.conflict_type <;> unfold resolve_single_conflict <;> rw [hct]
  · rw [resolve_energy_nutriview]; exact hv
  · rw [resolve_time_nutriview]; exact hv
  · exact absurd hct hc
  · rw [resolve_recovery_nutriview]; exact hv
  · rw [resolve_nutritional_nutriview]; exact hv
  · rw [resolve_motivation_nutriview]; exact hv

/-- One iteration of the resolution loop establishes the clamp when it handles
the Budget conflict. -/
theorem resolve_step_budget_clamps (c : ConflictResolution) (ps : Proposals)
    (hc : c.conflict_type = ConflictType.budget_conflict) (h : BudgetReady ps) :
    BudgetClamped (apply_conflict_resolution (resolve_single_conflict c ps).2
      (resolve_single_conflict c ps).1) := by
  have hclamp := resolve_budget_clamps c ps h
  obtain ⟨b, t, hv, hb⟩ := hclamp
  refine ⟨b, t, ?_, hb⟩
  rw [apply_conflict_resolution_nutriview]
  unfold resolve_single_conflict
  rw [hc]
  exact hv

/-- One iteration of the resolution loop preserves the clamp, whatever the
conflict type. -/
theorem resolve_step_keeps_clamped (c : ConflictResolution) (ps : Proposals)
    (h : BudgetClamped ps) :
    BudgetClamped (apply_conflict_resolution (resolve_single_conflict c ps).2
      (resolve_single_conflict c ps).1) := by
  have hview : ∀ ps2 : Proposals, NutriView ps2 = NutriView ps → BudgetClamped ps2 := by
    intro ps2 he
    obtain ⟨b, t, hv, hb⟩ := h
    exact ⟨b, t, he.trans hv, hb⟩
  cases hct : c.conflict_type
  case energy_conflict =>
    unfold resolve_single_conflict; rw [hct]
    exact hview _ (by rw [apply_conflict_resolution_nutriview, resolve_energy_nutriview])
  case time_conflict =>
    unfold resolve_single_conflict; rw [hct]
    exact hview _ (by rw [apply_conflict_resolution_nutriview, resolve_time_nutriview])
  case budget_conflict =>
    unfold resolve_single_conflict; rw [hct]
    obtain ⟨b, t, hv, hb⟩ := resolve_budget_keeps_clamped c ps h
    exact ⟨b, t, by rw [apply_conflict_resolution_nutriview]; exact hv, hb⟩
  case recovery_conflict =>
    unfold resolve_single_conflict; rw [hct]
    exact hview _ (by rw [apply_conflict_resolution_nutriview, resolve_recovery_nutriview])
  case nutritional_conflict =>
    unfold resolve_single_conflict; rw [hct]
    exact hview _ (by rw [apply_conflict_resolution_nutriview, resolve_nutritional_nutriview])
  case motivation_conflict =>
    unfold resolve_single_conflict; rw [hct]
    exact hview _ (by rw [apply_conflict_resolution_nutriview, resolve_motivation_nutriview])

/-- The resolution loop: once a Budget conflict is in the (prioritized) list
and the over-budget view holds on entry, the final proposals have the budget
utilization clamped to at most `0.85`. -/
theorem resolve_loop_clamps (L : List ConflictResolution) (ps : Proposals) :
    (BudgetClamped ps → BudgetClamped (resolve_loop L ps).2) ∧
    ((∃ c ∈ L, c.conflict_type = ConflictType.budget_conflict) →
      BudgetReady ps → BudgetClamped (resolve_loop L ps).2) := by
  induction L generalizing ps with
  | nil =>
    refine ⟨fun h => h, fun hmem _ => ?_⟩
    obtain ⟨c, hc, _⟩ := hmem
    simp at hc
  | cons c rest ih =>
    constructor
    · intro h
      rw [resolve_loop]
      exact (ih _).1 (resolve_step_keeps_clamped c ps h)
    · rintro ⟨c2, hc2, hbudget⟩ hready
      rw [resolve_loop]
      rcases List.mem_cons.mp hc2 with rfl | hc2rest
      · exact (ih _).1 (resolve_step_budget_clamps c2 ps hbudget hready)
      · by_cases hc : c.conflict_type = ConflictType.budget_conflict
        · exact (ih _).1 (resolve_step_budget_clamps c ps hc hready)
        · exact (ih _).2 ⟨c2, hc2rest, hbudget⟩
            (resolve_step_preserves_ready c ps hc hready)

/-- Validation establishes the over-budget view: an explicit over-budget
utilization survives, and the meal plan is either kept (truthy by hypothesis)
or replaced by the non-empty default. -/
theorem validate_establishes_ready (props : Proposals) (n : NutritionProp)
    (b : ℚ) (hn : props.nutrition = some n) (hbu : n.budget_utilization = some b)
    (hgt : 0.9 < b)
    (hmp : n.meal_plan = none ∨ ∃ mp, n.meal_plan = some mp ∧ mp.truthy = true) :
    BudgetReady (validate_all_proposals props).1 := by
  refine ⟨b, ?_, hgt⟩
  rcases hmp with hmp | ⟨mp, hmp, ht⟩
  · simp [validate_all_proposals, validate_nutrition, NutriView, hn, hbu, hmp,
      defaultMealPlan, MealPlan.truthy]
  · simp [validate_all_proposals, validate_nutrition, NutriView, hn, hbu, hmp, ht]

/-- `_apply_recovery_prioritization` keeps the budget utilization and the
meal-plan truthiness of the Nutrition proposal it touches. -/
theorem applyRecoveryNutrition_view (n : NutritionProp) :
    (applyRecoveryNutrition n).budget_utilization = n.budget_utilization ∧
    (match (applyRecoveryNutrition n).meal_plan with
      | some m => m.truthy | none => false) =
    (match n.meal_plan with | some m => m.truthy | none => false) := by
  unfold applyRecoveryNutrition
  rcases hm : n.meal_plan with _ | mp
  · simp [hm]
  · by_cases ht : mp.truthy = true
    · simp only [hm]
      rw [if_pos ht]
      simpa [MealPlan.truthy] using ht
    · simp only [hm]
      rw [if_neg ht]
      simp

/-- The Nutrition slot after `_apply_recovery_prioritization` is either
untouched or rewritten through `applyRecoveryNutrition` on a truthy proposal. -/
theorem apply_recovery_nutrition_slot (ps : Proposals) (rp : RecoveryPriority) :
    (apply_recovery_prioritization ps rp).nutrition = ps.nutrition ∨
    (∃ n, ps.nutrition = some n ∧
      (apply_recovery_prioritization ps rp).nutrition =
        some (applyRecoveryNutrition n)) := by
  by_cases hp : (rp.priority_level = "critical" ∨ rp.priority_level = "high")
  · by_cases hd : "nutrition" ∈ rp.affected_domains
    · rcases hn : ps.nutrition with _ | n
      · left; simp [apply_recovery_prioritization, hp, hd, hn]
      · by_cases ht : n.truthy = true
        · right
          exact ⟨n, rfl, by simp [apply_recovery_prioritization, hp, hd, hn, ht]⟩
        · left; simp [apply_recovery_prioritization, hp, hd, hn, ht]
    · left; simp [apply_recovery_prioritization, hp, hd]
  · left; simp [apply_recovery_prioritization, hp]

/-- `_apply_recovery_prioritization` preserves the over-budget view. -/
theorem apply_recovery_preserves_ready (ps : Proposals) (rp : RecoveryPriority)
    (h : BudgetReady ps) : BudgetReady (apply_recovery_prioritization ps rp) := by
  obtain ⟨b, hv, hb⟩ := h
  refine ⟨b, ?_, hb⟩
  rcases apply_recovery_nutrition_slot ps rp with hslot | ⟨n, hn, hslot⟩
  · simpa [NutriView, hslot] using hv
  · simp [NutriView, hn] at hv
    obtain ⟨hbu, ht⟩ := hv
    have hview := applyRecoveryNutrition_view n
    simp [NutriView, hslot, hview.1, hview.2, hbu, ht]

/-- With an over-budget view, `_detect_conflicts` emits a Budget conflict. -/
theorem detect_emits_budget (ps : Proposals) (cons : Constraints)
    (h : BudgetReady ps) :
    ∃ c ∈ detect_conflicts ps cons,
      c.conflict_type = ConflictType.budget_conflict := by
  obtain ⟨b, hv, hb⟩ := h
  rcases hn : ps.nutrition with _ | n
  · simp [NutriView, hn] at hv
  · simp [NutriView, hn] at hv
    obtain ⟨hbu, -⟩ := hv
    have hd : detect_budget_conflict ps = some
        { conflict_type := .budget_conflict
          affected_agents := ["NutritionAgent"]
          resolution_strategy := "optimize_nutrition_costs_or_adjust_goals"
          trade_offs_made := []
          confidence_impact := -0.1
          reasoning := .budget b } := by
      unfold detect_budget_conflict
      simp [hn, hbu, hb]
    refine ⟨{ conflict_type := .budget_conflict
              affected_agents := ["NutritionAgent"]
              resolution_strategy := "optimize_nutrition_costs_or_adjust_goals"
              trade_offs_made := []
              confidence_impact := -0.1
              reasoning := .budget b }, ?_, rfl⟩
    unfold detect_conflicts
    simp [hd]

/-- When all four expected agents are present, validation reports success. -/
theorem validate_all_valid_of_present (props : Proposals)
    (hf : props.fitness.isSome) (hn : props.nutrition.isSome)
    (hs : props.sleep.isSome) (hm : props.mental.isSome) :
    (validate_all_proposals props).2.all_valid = true := by
  simp [validate_all_proposals, Option.isNone_iff_eq_none]
  constructor
  · intro h; rw [h] at hf; simp at hf
  constructor
  · intro h; rw [h] at hn; simp at hn
  constructor
  · intro h; rw [h] at hs; simp at hs
  · intro h; rw [h] at hm; simp at hm

/-- Core of C7 at the trace level: with validation succeeding and the
over-budget view on the validated proposals, the pass detects a Budget
conflict and the final proposals are clamped. -/
theorem runCoordination_budget (props : Proposals) (cons : Constraints)
    (ss : Option SharedState)
    (hvalid : (validate_all_proposals props).2.all_valid = true)
    (hready : BudgetReady (validate_all_proposals props).1) :
    (∃ c ∈ (runCoordination props cons ss).detectedConflicts,
        c.conflict_type = ConflictType.budget_conflict) ∧
    BudgetClamped (runCoordination props cons ss).finalProps := by
  unfold runCoordination
  simp only [hvalid, not_true, if_false, Bool.true_eq_false, ite_false]
  set vp := (validate_all_proposals props).1 with hvp
  set u := userDataOf ss with hu
  set bal := assess_energy_balance vp u with hbal
  set ecs := detect_energy_conflicts bal vp u with hecsd
  by_cases hecs : ecs = []
  · simp only [hecs, if_true, ite_true]
    obtain ⟨c, hcmem, hcty⟩ := detect_emits_budget vp cons hready
    have hne : detect_conflicts vp cons ≠ [] := by
      intro h; rw [h] at hcmem; simp at hcmem
    clear hvp hu hbal hecsd hvalid hecs
    clear_value vp u bal ecs
    rw [if_neg hne]
    dsimp only
    refine ⟨⟨c, hcmem, hcty⟩, ?_⟩
    unfold resolve_conflicts_with_optimization
    exact (resolve_loop_clamps (prioritize_conflicts (detect_conflicts vp cons)) vp).2
      ⟨c, (List.perm_insertionSort _ _).mem_iff.mpr hcmem, hcty⟩ hready
  · simp only [hecs, if_false, ite_false]
    set rps := apply_recovery_prioritization vp (prioritize_recovery ecs bal vp)
      with hrps
    have hreadyR : BudgetReady rps :=
      apply_recovery_preserves_ready _ _ hready
    obtain ⟨c, hcmem, hcty⟩ := detect_emits_budget rps cons hreadyR
    have hne : detect_conflicts rps cons ≠ [] := by
      intro h; rw [h] at hcmem; simp at hcmem
    clear hvp hu hbal hecsd hvalid hready hrps hecs
    clear_value vp u bal ecs rps
    rw [if_neg hne]
    dsimp only
    refine ⟨⟨c, hcmem, hcty⟩, ?_⟩
    unfold resolve_conflicts_with_optimization
    exact (resolve_loop_clamps (prioritize_conflicts (detect_conflicts rps cons)) rps).2
      ⟨c, (List.perm_insertionSort _ _).mem_iff.mpr hcmem, hcty⟩ hreadyR

/-- C7 (amended): for any input with all four agents present, Nutrition
`budget_utilization > 0.9`, and a `meal_plan` that is either absent (so
validation injects the non-empty default) or present and non-empty, a Budget
conflict is detected and after resolution the final Nutrition proposal's
`budget_utilization` is at most `0.85`.  (The counterexample shows the clamp
is skipped when the `meal_plan` dict is present but empty.) -/
theorem C7_budget_clamped_when_meal_plan_nonempty
    (e : ℚ) (props : Proposals) (cons : Constraints) (ss : Option SharedState)
    (n : NutritionProp) (b : ℚ)
    (hf : props.fitness.isSome = true) (hs : props.sleep.isSome = true)
    (hm : props.mental.isSome = true) (hn : props.nutrition = some n)
    (hbu : n.budget_utilization = some b) (hgt : 0.9 < b)
    (hmp : n.meal_plan = none ∨ ∃ mp, n.meal_plan = some mp ∧ mp.truthy = true) :
    (∃ c ∈ (runCoordination props cons ss).detectedConflicts,
      c.conflict_type = ConflictType.budget_conflict) ∧
    BudgetClamped (coordinate_agent_proposals e props cons ss).2 := by
  have hnn : props.nutrition.isSome = true := by rw [hn]; rfl
  have h1 := runCoordination_budget props cons ss
    (validate_all_valid_of_present props hf hnn hs hm)
    (validate_establishes_ready props n b hn hbu hgt hmp)
  exact ⟨h1.1, h1.2⟩

/-- Witness for C7 (amended) at `budget_utilization = 0.95` with the meal
plan absent. -/
theorem C7_budget_clamped_when_meal_plan_nonempty_witness :
    (scenarioBudget.nutrition = some { budget_utilization := some 0.95 } ∧
     (0.9 : ℚ) < 0.95) ∧
    ((∃ c ∈ (runCoordination scenarioBudget {} none).detectedConflicts,
        c.conflict_type = ConflictType.budget_conflict) ∧
     BudgetClamped (coordinate_agent_proposals 0 scenarioBudget {} none).2) :=
  ⟨⟨rfl, by norm_num⟩,
   C7_budget_clamped_when_meal_plan_nonempty 0 scenarioBudget {} none
     { budget_utilization := some 0.95 } 0.95 rfl rfl rfl rfl rfl (by norm_num)
     (Or.inl rfl)⟩

/-! ### Lemmas for C8: confidence bounds through the pipeline -/

/-- The validated confidence always lands in `[0, 1]`. -/
theorem validate_confidence_mem (c : Option ℚ) :
    0 ≤ validate_confidence c ∧ validate_confidence c ≤ 1 := by
  unfold validate_confidence
  rcases c with _ | c
  · norm_num
  · dsimp only
    split_ifs with h
    · exact ⟨h.1, h.2⟩
    · refine ⟨le_max_left _ _, max_le (by norm_num) (min_le_left _ _)⟩

/-- After validation every present proposal's confidence is in `[0, 1]`. -/
theorem validated_props_conf (props : Proposals) :
    propsConfInUnit (validate_all_proposals props).1 := by
  refine ⟨?_, ?_, ?_, ?_⟩ <;> intro p hp
  · rcases hf : props.fitness with _ | q <;>
      simp [validate_all_proposals, hf] at hp
    rw [← hp]
    simpa [validate_fitness, confInUnit] using validate_confidence_mem q.confidence
  · rcases hf : props.nutrition with _ | q <;>
      simp [validate_all_proposals, hf] at hp
    rw [← hp]
    simpa [validate_nutrition, confInUnit] using validate_confidence_mem q.confidence
  · rcases hf : props.sleep with _ | q <;>
      simp [validate_all_proposals, hf] at hp
    rw [← hp]
    simpa [validate_sleep, confInUnit] using validate_confidence_mem q.confidence
  · rcases hf : props.mental with _ | q <;>
      simp [validate_all_proposals, hf] at hp
    rw [← hp]
    simpa [validate_mental, confInUnit] using validate_confidence_mem q.confidence

/-- The recovery prioritization step on the Fitness proposal keeps the
confidence in `[0, 1]` (it sets `max(0.3, confidence − 0.1)`). -/
theorem applyRecoveryFitness_conf (p : FitnessProp) (rp : RecoveryPriority)
    (h : confInUnit p.confidence) :
    confInUnit (applyRecoveryFitness p rp).confidence := by
  obtain ⟨h0, h1⟩ := h
  unfold applyRecoveryFitness confInUnit
  constructor
  · simp only [Option.getD_some]
    exact le_trans (by norm_num) (le_max_left _ _)
  · simp only [Option.getD_some]
    exact max_le (by norm_num) (by linarith)

/-- The Fitness slot after `_apply_recovery_prioritization`. -/
theorem apply_recovery_fitness_slot (ps : Proposals) (rp : RecoveryPriority) :
    (apply_recovery_prioritization ps rp).fitness = ps.fitness ∨
    (∃ p, ps.fitness = some p ∧
      (apply_recovery_prioritization ps rp).fitness =
        some (applyRecoveryFitness p rp)) := by
  by_cases hp : (rp.priority_level = "critical" ∨ rp.priority_level = "high")
  · by_cases hd : "fitness" ∈ rp.affected_domains
    · rcases hn : ps.fitness with _ | p
      · left; simp [apply_recovery_prioritization, hp, hd, hn]
      · by_cases ht : p.truthy = true
        · right
          exact ⟨p, rfl, by simp [apply_recovery_prioritization, hp, hd, hn, ht]⟩
        · left; simp [apply_recovery_prioritization, hp, hd, hn, ht]
    · left; simp [apply_recovery_prioritization, hp, hd]
  · left; simp [apply_recovery_prioritization, hp]

/-- The Sleep slot after `_apply_recovery_prioritization`. -/
theorem apply_recovery_sleep_slot (ps : Proposals) (rp : RecoveryPriority) :
    (apply_recovery_prioritization ps rp).sleep = ps.sleep ∨
    (∃ p, ps.sleep = some p ∧
      (apply_recovery_prioritization ps rp).sleep =
        some (applyRecoverySleep p rp)) := by
  by_cases hp : (rp.priority_level = "critical" ∨ rp.priority_level = "high")
  · by_cases hd : "sleep" ∈ rp.affected_domains
    · rcases hn : ps.sleep with _ | p
      · left; simp [apply_recovery_prioritization, hp, hd, hn]
      · by_cases ht : p.truthy = true
        · right
          exact ⟨p, rfl, by simp [apply_recovery_prioritization, hp, hd, hn, ht]⟩
        · left; simp [apply_recovery_prioritization, hp, hd, hn, ht]
    · left; simp [apply_recovery_prioritization, hp, hd]
  · left; simp [apply_recovery_prioritization, hp]

/-- The MentalWellness slot after `_apply_recovery_prioritization`. -/
theorem apply_recovery_mental_slot (ps : Proposals) (rp : RecoveryPriority) :
    (apply_recovery_prioritization ps rp).mental = ps.mental ∨
    (∃ p, ps.mental = some p ∧
      (apply_recovery_prioritization ps rp).mental =
        some (applyRecoveryMental p)) := by
  by_cases hp : (rp.priority_level = "critical" ∨ rp.priority_level = "high")
  · by_cases hd : "mental_wellness" ∈ rp.affected_domains
    · rcases hn : ps.mental with _ | p
      · left; simp [apply_recovery_prioritization, hp, hd, hn]
      · by_cases ht : p.truthy = true
        · right
          exact ⟨p, rfl, by simp [apply_recovery_prioritization, hp, hd, hn, ht]⟩
        · left; simp [apply_recovery_prioritization, hp, hd, hn, ht]
    · left; simp [apply_recovery_prioritization, hp, hd]
  · left; simp [apply_recovery_prioritization, hp]

/-- `_apply_recovery_prioritization` keeps every present confidence in
`[0, 1]`: only the Fitness confidence is rewritten, and its new value
`max(0.3, c − 0.1)` stays in the unit interval. -/
theorem apply_recovery_conf (ps : Proposals) (rp : RecoveryPriority)
    (h : propsConfInUnit ps) :
    propsConfInUnit (apply_recovery_prioritization ps rp) := by
  obtain ⟨hf, hn, hs, hm⟩ := h
  refine ⟨?_, ?_, ?_, ?_⟩ <;> intro p hp
  · rcases apply_recovery_fitness_slot ps rp with hslot | ⟨q, hq, hslot⟩
    · exact hf p (hslot ▸ hp)
    · rw [hslot] at hp
      obtain rfl : applyRecoveryFitness q rp = p := by injection hp
      exact applyRecoveryFitness_conf q rp (hf q hq)
  · rcases apply_recovery_nutrition_slot ps rp with hslot | ⟨q, hq, hslot⟩
    · exact hn p (hslot ▸ hp)
    · rw [hslot] at hp
      obtain rfl : applyRecoveryNutrition q = p := by injection hp
      have : (applyRecoveryNutrition q).confidence = q.confidence := rfl
      rw [confInUnit, this]
      exact hn q hq
  · rcases apply_recovery_sleep_slot ps rp with hslot | ⟨q, hq, hslot⟩
    · exact hs p (hslot ▸ hp)
    · rw [hslot] at hp
      obtain rfl : applyRecoverySleep q rp = p := by injection hp
      have : (applyRecoverySleep q rp).confidence = q.confidence := rfl
      rw [confInUnit, this]
      exact hs q hq
  · rcases apply_recovery_mental_slot ps rp with hslot | ⟨q, hq, hslot⟩
    · exact hm p (hslot ▸ hp)
    · rw [hslot] at hp
      obtain rfl : applyRecoveryMental q = p := by injection hp
      have : (applyRecoveryMental q).confidence = q.confidence := rfl
      rw [confInUnit, this]
      exact hm q hq

/-- The four confidence slots of a proposal map, the data `propsConfInUnit`
depends on. -/
def confView (ps : Proposals) :
    Option (Option ℚ) × Option (Option ℚ) × Option (Option ℚ) × Option (Option ℚ) :=
  (ps.fitness.map (fun p => p.confidence), ps.nutrition.map (fun p => p.confidence),
   ps.sleep.map (fun p => p.confidence), ps.mental.map (fun p => p.confidence))

/-- `propsConfInUnit` only depends on the `confView` projection. -/
theorem propsConfInUnit_of_confView {ps qs : Proposals}
    (h : confView qs = confView ps) (hps : propsConfInUnit ps) :
    propsConfInUnit qs := by
  obtain ⟨hf, hn, hs, hm⟩ := hps
  obtain ⟨h1, h2, h3, h4⟩ : qs.fitness.map (fun p => p.confidence) =
      ps.fitness.map (fun p => p.confidence) ∧
      qs.nutrition.map (fun p => p.confidence) =
      ps.nutrition.map (fun p => p.confidence) ∧
      qs.sleep.map (fun p => p.confidence) =
      ps.sleep.map (fun p => p.confidence) ∧
      qs.mental.map (fun p => p.confidence) =
      ps.mental.map (fun p => p.confidence) := by
    have := h
    simp only [confView, Prod.mk.injEq] at this
    exact ⟨this.1, this.2.1, this.2.2.1, this.2.2.2⟩
  refine ⟨?_, ?_, ?_, ?_⟩ <;> intro p hp
  · have hthis : ps.fitness.map (fun p => p.confidence) = some p.confidence := by
      rw [← h1, hp]; rfl
    rcases hq : ps.fitness with _ | q <;> rw [hq] at hthis
    · simp at hthis
    · simp at hthis
      rw [confInUnit, ← hthis]
      exact hf q hq
  · have hthis : ps.nutrition.map (fun p => p.confidence) = some p.confidence := by
      rw [← h2, hp]; rfl
    rcases hq : ps.nutrition with _ | q <;> rw [hq] at hthis
    · simp at hthis
    · simp at hthis
      rw [confInUnit, ← hthis]
      exact hn q hq
  · have hthis : ps.sleep.map (fun p => p.confidence) = some p.confidence := by
      rw [← h3, hp]; rfl
    rcases hq : ps.sleep with _ | q <;> rw [hq] at hthis
    · simp at hthis
    · simp at hthis
      rw [confInUnit, ← hthis]
      exact hs q hq
  · have hthis : ps.mental.map (fun p => p.confidence) = some p.confidence := by
      rw [← h4, hp]; rfl
    rcases hq : ps.mental with _ | q <;> rw [hq] at hthis
    · simp at hthis
    · simp at hthis
      rw [confInUnit, ← hthis]
      exact hm q hq

/-- `_resolve_recovery_conflict` never touches a confidence slot. -/
theorem resolve_recovery_confView (c : ConflictResolution) (ps : Proposals) :
    confView (resolve_recovery_conflict c ps).2 = confView ps := by
  unfold resolve_recovery_conflict
  by_cases h : ps.fitness.bind (fun p => p.energy_demand) = some "high"
  · rcases hq : ps.fitness with _ | q <;> rw [hq] at h
    · simp at h
    · simp at h
      simp [hq, h, confView]
  · simp [h]

/-- `_resolve_energy_conflict` never touches a confidence slot. -/
theorem resolve_energy_confView (c : ConflictResolution) (ps : Proposals) :
    confView (resolve_energy_conflict c ps).2 = confView ps := by
  unfold resolve_energy_conflict
  by_cases hna : ps.nutrition.bind (fun p => p.nutritional_adequacy) = some "low"
  · rcases hr : ps.nutrition with _ | r <;> rw [hr] at hna
    · simp at hna
    · simp at hna
      by_cases hfed : ps.fitness.bind (fun p => p.energy_demand) = some "high"
      · rcases hq : ps.fitness with _ | q <;> rw [hq] at hfed
        · simp at hfed
        · simp at hfed
          simp [hr, hq, hna, hfed, confView]
      · simp [hr, hna, hfed, confView]
  · simp [hna]

/-- `_resolve_time_conflict` never touches a confidence slot. -/
theorem resolve_time_confView (c : ConflictResolution) (ps : Proposals) :
    confView (resolve_time_conflict c ps).2 = confView ps := by
  unfold resolve_time_conflict
  rcases hq : ps.fitness with _ | q <;> rcases hr : ps.nutrition with _ | r <;>
    simp only [hq, hr, confView] <;> split_ifs <;> simp [hq, hr]

/-- `_resolve_budget_conflict` never touches a confidence slot. -/
theorem resolve_budget_confView (c : ConflictResolution) (ps : Proposals) :
    confView (resolve_budget_conflict c ps).2 = confView ps := by
  unfold resolve_budget_conflict
  rcases hr : ps.nutrition with _ | r <;>
    simp only [hr, confView] <;> split_ifs <;> simp [hr]

/-- `_resolve_nutritional_conflict` never touches a confidence slot. -/
theorem resolve_nutritional_confView (c : ConflictResolution) (ps : Proposals) :
    confView (resolve_nutritional_conflict c ps).2 = confView ps := by
  unfold resolve_nutritional_conflict
  by_cases hna : ps.nutrition.bind (fun p => p.nutritional_adequacy) = some "low"
  · rcases hr : ps.nutrition with _ | r <;> rw [hr] at hna
    · simp at hna
    · simp at hna
      by_cases hfed : ps.fitness.bind (fun p => p.energy_demand) = some "high"
      · rcases hq : ps.fitness with _ | q <;> rw [hq] at hfed
        · simp at hfed
        · simp at hfed
          simp [hr, hq, hna, hfed, confView]
      · simp [hr, hna, hfed, confView]
  · simp [hna]

/-- One step of the motivation-resolver loop never touches a confidence slot. -/
theorem motivationStep_confView (acc : Proposals × List String) (agent : String) :
    confView (motivationStep acc agent).1 = confView acc.1 := by
  unfold motivationStep
  rcases acc with ⟨ps, ts⟩
  dsimp only
  split_ifs with h1 h2 h3 h4 <;>
    rcases hq : ps.fitness with _ | q <;> rcases hr : ps.nutrition with _ | r <;>
    simp [hq, hr, confView]

/-- `_resolve_motivation_conflict` never touches a confidence slot. -/
theorem resolve_motivation_confView (c : ConflictResolution) (ps : Proposals) :
    confView (resolve_motivation_conflict c ps).2 = confView ps := by
  unfold resolve_motivation_conflict
  rcases hfold : c.affected_agents.foldl motivationStep (ps, []) with ⟨qs, ts⟩
  dsimp only
  suffices h : ∀ (l : List String) (acc : Proposals × List String),
      confView (l.foldl motivationStep acc).1 = confView acc.1 by
    have := h c.affected_agents (ps, [])
    rw [hfold] at this
    exact this
  intro l
  induction l with
  | nil => intro acc; rfl
  | cons a rest ih =>
    intro acc
    rw [List.foldl_cons, ih, motivationStep_confView]

/-- `_resolve_single_conflict` never touches a confidence slot. -/
theorem resolve_single_confView (c : ConflictResolution) (ps : Proposals) :
    confView (resolve_single_conflict c ps).2 = confView ps := by
  unfold resolve_single_conflict
  cases c.conflict_type
  · exact resolve_energy_confView c ps
  · exact resolve_time_confView c ps
  · exact resolve_budget_confView c ps
  · exact resolve_recovery_confView c ps
  · exact resolve_nutritional_confView c ps
  · exact resolve_motivation_confView c ps

/-- Every resolver emits a non-positive `confidence_impact` (−0.1 or −0.05). -/
theorem resolve_single_impact (c : ConflictResolution) (ps : Proposals) :
    (resolve_single_conflict c ps).1.confidence_impact ≤ 0 := by
  unfold resolve_single_conflict
  cases c.conflict_type
  · show (resolve_energy_conflict c ps).1.confidence_impact ≤ 0
    unfold resolve_energy_conflict
    dsimp only
    norm_num
  · show (resolve_time_conflict c ps).1.confidence_impact ≤ 0
    unfold resolve_time_conflict
    norm_num
  · show (resolve_budget_conflict c ps).1.confidence_impact ≤ 0
    unfold resolve_budget_conflict
    dsimp only
    norm_num
  · show (resolve_recovery_conflict c ps).1.confidence_impact ≤ 0
    unfold resolve_recovery_conflict
    dsimp only
    norm_num
  · show (resolve_nutritional_conflict c ps).1.confidence_impact ≤ 0
    unfold resolve_nutritional_conflict
    dsimp only
    norm_num
  · show (resolve_motivation_conflict c ps).1.confidence_impact ≤ 0
    unfold resolve_motivation_conflict
    dsimp only
    norm_num

/-- `max(0.1, x + i)` stays in `[0, 1]` when `x ∈ [0, 1]` and `i ≤ 0`. -/
theorem maxClampInUnit (x i : ℚ) (hx0 : 0 ≤ x) (hx1 : x ≤ 1) (hi : i ≤ 0) :
    0 ≤ max 0.1 (x + i) ∧ max 0.1 (x + i) ≤ 1 :=
  ⟨le_trans (by norm_num) (le_max_left (0.1 : ℚ) (x + i)),
   max_le (by norm_num) (by linarith)⟩

/-- `_apply_conflict_resolution` keeps every present confidence in `[0, 1]`
whenever the applied `confidence_impact` is non-positive. -/
theorem apply_conflict_resolution_conf (ps : Proposals) (c : ConflictResolution)
    (hi : c.confidence_impact ≤ 0) (h : propsConfInUnit ps) :
    propsConfInUnit (apply_conflict_resolution ps c) := by
  unfold apply_conflict_resolution
  generalize c.affected_agents = l
  induction l generalizing ps with
  | nil => exact h
  | cons a rest ih =>
    rw [List.foldl_cons]
    apply ih
    obtain ⟨hf, hn, hs, hm⟩ := h
    by_cases h1 : a = "FitnessAgent"
    · rw [if_pos h1]
      refine ⟨?_, hn, hs, hm⟩
      intro p hp
      rcases hq : ps.fitness with _ | q <;> rw [hq] at hp
      · simp at hp
      · simp at hp
        obtain ⟨hu0, hu1⟩ := hf q hq
        rw [confInUnit, ← hp]
        exact maxClampInUnit _ _ hu0 hu1 hi
    · rw [if_neg h1]
      by_cases h2 : a = "NutritionAgent"
      · rw [if_pos h2]
        refine ⟨hf, ?_, hs, hm⟩
        intro p hp
        rcases hq : ps.nutrition with _ | q <;> rw [hq] at hp
        · simp at hp
        · simp at hp
          obtain ⟨hu0, hu1⟩ := hn q hq
          rw [confInUnit, ← hp]
          exact maxClampInUnit _ _ hu0 hu1 hi
      · rw [if_neg h2]
        by_cases h3 : a = "SleepAgent"
        · rw [if_pos h3]
          refine ⟨hf, hn, ?_, hm⟩
          intro p hp
          rcases hq : ps.sleep with _ | q <;> rw [hq] at hp
          · simp at hp
          · simp at hp
            obtain ⟨hu0, hu1⟩ := hs q hq
            rw [confInUnit, ← hp]
            exact maxClampInUnit _ _ hu0 hu1 hi
        · rw [if_neg h3]
          by_cases h4 : a = "MentalWellnessAgent"
          · rw [if_pos h4]
            refine ⟨hf, hn, hs, ?_⟩
            intro p hp
            rcases hq : ps.mental with _ | q <;> rw [hq] at hp
            · simp at hp
            · simp at hp
              obtain ⟨hu0, hu1⟩ := hm q hq
              rw [confInUnit, ← hp]
              exact maxClampInUnit _ _ hu0 hu1 hi
          · rw [if_neg h4]
            exact ⟨hf, hn, hs, hm⟩

/-- The resolution loop keeps every present confidence in `[0, 1]`: each step
leaves confidences untouched in the resolver and then applies a clamped
non-positive adjustment. -/
theorem resolve_loop_conf (cs : List ConflictResolution) (ps : Proposals)
    (h : propsConfInUnit ps) : propsConfInUnit (resolve_loop cs ps).2 := by
  induction cs generalizing ps with
  | nil => exact h
  | cons c rest ih =>
    rw [resolve_loop]
    dsimp only
    apply ih
    apply apply_conflict_resolution_conf _ _ (resolve_single_impact c ps)
    exact propsConfInUnit_of_confView (resolve_single_confView c ps) h

/-- The aggregate confidence (`total_confidence / len(agent_proposals)`) lies
in `[0, 1]` whenever every present proposal's confidence does. -/
theorem meanConfidence_mem (ps : Proposals) (h : propsConfInUnit ps) :
    0 ≤ Proposals.meanConfidence ps ∧ Proposals.meanConfidence ps ≤ 1 := by
  obtain ⟨hf, hn, hs, hm⟩ := h
  have bf : 0 ≤ (match ps.fitness with | some p => p.confidence.getD 0.5 | none => 0) ∧
      (match ps.fitness with | some p => p.confidence.getD 0.5 | none => 0) ≤
        (if ps.fitness.isSome then (1 : ℚ) else 0) := by
    rcases hq : ps.fitness with _ | q
    · simp
    · simpa [confInUnit] using hf q hq
  have bn : 0 ≤ (match ps.nutrition with | some p => p.confidence.getD 0.5 | none => 0) ∧
      (match ps.nutrition with | some p => p.confidence.getD 0.5 | none => 0) ≤
        (if ps.nutrition.isSome then (1 : ℚ) else 0) := by
    rcases hq : ps.nutrition with _ | q
    · simp
    · simpa [confInUnit] using hn q hq
  have bs : 0 ≤ (match ps.sleep with | some p => p.confidence.getD 0.5 | none => 0) ∧
      (match ps.sleep with | some p => p.confidence.getD 0.5 | none => 0) ≤
        (if ps.sleep.isSome then (1 : ℚ) else 0) := by
    rcases hq : ps.sleep with _ | q
    · simp
    · simpa [confInUnit] using hs q hq
  have bm : 0 ≤ (match ps.mental with | some p => p.confidence.getD 0.5 | none => 0) ∧
      (match ps.mental with | some p => p.confidence.getD 0.5 | none => 0) ≤
        (if ps.mental.isSome then (1 : ℚ) else 0) := by
    rcases hq : ps.mental with _ | q
    · simp
    · simpa [confInUnit] using hm q hq
  unfold Proposals.meanConfidence
  by_cases hsz : ps.size = 0
  · simp [hsz]
  · rw [if_neg hsz]
    have hszpos : (0 : ℚ) < (ps.size : ℚ) := by
      exact_mod_cast Nat.pos_of_ne_zero hsz
    have hsum0 : 0 ≤ Proposals.confSum ps := by
      unfold Proposals.confSum
      linarith [bf.1, bn.1, bs.1, bm.1]
    have hsums : Proposals.confSum ps ≤ (ps.size : ℚ) := by
      have hcast : (ps.size : ℚ) =
          (if ps.fitness.isSome then (1 : ℚ) else 0) +
          (if ps.nutrition.isSome then (1 : ℚ) else 0) +
          (if ps.sleep.isSome then (1 : ℚ) else 0) +
          (if ps.mental.isSome then (1 : ℚ) else 0) := by
        unfold Proposals.size
        split_ifs <;> norm_num
      unfold Proposals.confSum
      rw [hcast]
      linarith [bf.2, bn.2, bs.2, bm.2]
    exact ⟨div_nonneg hsum0 (le_of_lt hszpos), (div_le_one hszpos).mpr hsums⟩

/-- An all-absent `agent_contributions` map trivially satisfies the bound. -/
theorem contribs_empty_inUnit : contribsInUnit ({} : Contributions) := by
  refine ⟨?_, ?_, ?_, ?_⟩ <;> intro a ha <;> cases ha

/-- The no-conflict plan copies each present-proposal confidence into
`agent_contributions`, so its entries stay in `[0, 1]`. -/
theorem contribs_no_conflicts (ps : Proposals) (cons : Constraints)
    (h : propsConfInUnit ps) :
    contribsInUnit (create_unified_plan_no_conflicts ps cons).agent_contributions := by
  obtain ⟨hf, hn, hs, hm⟩ := h
  refine ⟨?_, ?_, ?_, ?_⟩ <;> intro a ha
  · rcases hq : ps.fitness with _ | q <;>
      simp only [create_unified_plan_no_conflicts, hq, Option.map_none, Option.map_some] at ha
    · cases ha
    · obtain hc : _ = a := by injection ha
      rw [← hc]
      exact hf q hq
  · rcases hq : ps.nutrition with _ | q <;>
      simp only [create_unified_plan_no_conflicts, hq, Option.map_none, Option.map_some] at ha
    · cases ha
    · obtain hc : _ = a := by injection ha
      rw [← hc]
      exact hn q hq
  · rcases hq : ps.sleep with _ | q <;>
      simp only [create_unified_plan_no_conflicts, hq, Option.map_none, Option.map_some] at ha
    · cases ha
    · obtain hc : _ = a := by injection ha
      rw [← hc]
      exact hs q hq
  · rcases hq : ps.mental with _ | q <;>
      simp only [create_unified_plan_no_conflicts, hq, Option.map_none, Option.map_some] at ha
    · cases ha
    · obtain hc : _ = a := by injection ha
      rw [← hc]
      exact hm q hq

/-- The conflict-resolution plan copies each present-proposal confidence into
`agent_contributions`, so its entries stay in `[0, 1]`. -/
theorem contribs_unified (ps : Proposals) (resolved : List ConflictResolution)
    (h : propsConfInUnit ps) :
    contribsInUnit (generate_unified_plan ps resolved).agent_contributions := by
  obtain ⟨hf, hn, hs, hm⟩ := h
  refine ⟨?_, ?_, ?_, ?_⟩ <;> intro a ha
  · rcases hq : ps.fitness with _ | q <;>
      simp only [generate_unified_plan, hq, Option.map_none, Option.map_some] at ha
    · cases ha
    · obtain hc : _ = a := by injection ha
      rw [← hc]
      exact hf q hq
  · rcases hq : ps.nutrition with _ | q <;>
      simp only [generate_unified_plan, hq, Option.map_none, Option.map_some] at ha
    · cases ha
    · obtain hc : _ = a := by injection ha
      rw [← hc]
      exact hn q hq
  · rcases hq : ps.sleep with _ | q <;>
      simp only [generate_unified_plan, hq, Option.map_none, Option.map_some] at ha
    · cases ha
    · obtain hc : _ = a := by injection ha
      rw [← hc]
      exact hs q hq
  · rcases hq : ps.mental with _ | q <;>
      simp only [generate_unified_plan, hq, Option.map_none, Option.map_some] at ha
    · cases ha
    · obtain hc : _ = a := by injection ha
      rw [← hc]
      exact hm q hq

/-- On every path of `coordinate_agent_proposals`, the result confidence and
every contribution entry lie in `[0, 1]`, and every present confidence of the
final (mutated) proposal map does too. -/
theorem runCoordination_conf (props : Proposals) (cons : Constraints)
    (ss : Option SharedState) :
    (0 ≤ (runCoordination props cons ss).result.confidence ∧
      (runCoordination props cons ss).result.confidence ≤ 1) ∧
    contribsInUnit (runCoordination props cons ss).result.agent_contributions ∧
    propsConfInUnit (runCoordination props cons ss).finalProps := by
  have hv : propsConfInUnit (validate_all_proposals props).1 :=
    validated_props_conf props
  unfold runCoordination
  dsimp only
  by_cases hval : (validate_all_proposals props).2.all_valid = true
  · rw [if_neg (fun hc => hc hval)]
    by_cases hecs : detect_energy_conflicts
        (assess_energy_balance (validate_all_proposals props).1 (userDataOf ss))
        (validate_all_proposals props).1 (userDataOf ss) = []
    · rw [if_pos hecs]
      dsimp only
      by_cases hcf : Coordinator.detect_conflicts (validate_all_proposals props).1 cons = []
      · rw [if_pos hcf]
        dsimp only
        exact ⟨meanConfidence_mem _ hv, contribs_no_conflicts _ cons hv, hv⟩
      · rw [if_neg hcf]
        dsimp only
        have hfp : propsConfInUnit
            (resolve_conflicts_with_optimization (validate_all_proposals props).1
              (Coordinator.detect_conflicts (validate_all_proposals props).1 cons)).2 :=
          resolve_loop_conf _ _ hv
        exact ⟨meanConfidence_mem _ hfp, contribs_unified _ _ hfp, hfp⟩
    · rw [if_neg hecs]
      dsimp only
      have hrp : propsConfInUnit
          (apply_recovery_prioritization (validate_all_proposals props).1
            (prioritize_recovery
              (detect_energy_conflicts
                (assess_energy_balance (validate_all_proposals props).1 (userDataOf ss))
                (validate_all_proposals props).1 (userDataOf ss))
              (assess_energy_balance (validate_all_proposals props).1 (userDataOf ss))
              (validate_all_proposals props).1)) :=
        apply_recovery_conf _ _ hv
      by_cases hcf : Coordinator.detect_conflicts
          (apply_recovery_prioritization (validate_all_proposals props).1
            (prioritize_recovery
              (detect_energy_conflicts
                (assess_energy_balance (validate_all_proposals props).1 (userDataOf ss))
                (validate_all_proposals props).1 (userDataOf ss))
              (assess_energy_balance (validate_all_proposals props).1 (userDataOf ss))
              (validate_all_proposals props).1)) cons = []
      · rw [if_pos hcf]
        dsimp only
        refine ⟨by norm_num [create_error_coordination_result], ?_, hrp⟩
        exact contribs_empty_inUnit
      · rw [if_neg hcf]
        dsimp only
        have hfp : propsConfInUnit
            (resolve_conflicts_with_optimization
              (apply_recovery_prioritization (validate_all_proposals props).1
                (prioritize_recovery
                  (detect_energy_conflicts
                    (assess_energy_balance (validate_all_proposals props).1 (userDataOf ss))
                    (validate_all_proposals props).1 (userDataOf ss))
                  (assess_energy_balance (validate_all_proposals props).1 (userDataOf ss))
                  (validate_all_proposals props).1))
              (Coordinator.detect_conflicts
                (apply_recovery_prioritization (validate_all_proposals props).1
                  (prioritize_recovery
                    (detect_energy_conflicts
                      (assess_energy_balance (validate_all_proposals props).1 (userDataOf ss))
                      (validate_all_proposals props).1 (userDataOf ss))
                    (assess_energy_balance (validate_all_proposals props).1 (userDataOf ss))
                    (validate_all_proposals props).1)) cons)).2 :=
          resolve_loop_conf _ _ hrp
        refine ⟨by norm_num [create_error_coordination_result], ?_, hfp⟩
        exact contribs_empty_inUnit
  · rw [if_pos (by simpa using hval)]
    dsimp only
    refine ⟨by norm_num [handle_invalid_proposals], ?_, hv⟩
    exact contribs_empty_inUnit

/-- C8: For every input, after a full coordination pass the aggregate
`confidence` of the returned result, every `agent_contributions` confidence
entry, and every present per-proposal confidence in the (mutated) proposal
map lie in `[0, 1]`: validation clamps into the unit interval, recovery
prioritization replaces the fitness confidence by `max(0.3, c − 0.1)`, and
each conflict-resolution adjustment applies `max(0.1, c + impact)` with a
non-positive impact. -/
theorem C8_confidence_bounds (elapsed : ℚ) (props : Proposals)
    (cons : Constraints) (ss : Option SharedState) :
    (0 ≤ (coordinate_agent_proposals elapsed props cons ss).1.confidence ∧
      (coordinate_agent_proposals elapsed props cons ss).1.confidence ≤ 1) ∧
    contribsInUnit (coordinate_agent_proposals elapsed props cons ss).1.agent_contributions ∧
    propsConfInUnit (coordinate_agent_proposals elapsed props cons ss).2 := by
  have h := runCoordination_conf props cons ss
  have hc : (coordinate_agent_proposals elapsed props cons ss).1.confidence =
      (runCoordination props cons ss).result.confidence := rfl
  have ha : (coordinate_agent_proposals elapsed props cons ss).1.agent_contributions =
      (runCoordination props cons ss).result.agent_contributions := rfl
  have hp : (coordinate_agent_proposals elapsed props cons ss).2 =
      (runCoordination props cons ss).finalProps := rfl
  rw [hc, ha, hp]
  exact h
